import Mathlib

set_option maxRecDepth 8000

/- Shallow embedding of the BeachdAI background service worker
   (src/background.ts, v6.3): the orchestrator state machine, its event
   handlers, and the Gemini decision-service client.

   External asynchronous collaborators (the Gemini service, the browser
   tabs API, the content script, the credential vault) are represented by
   oracle data carried on events: each awaited call in the source is a
   suspension point, and the value it resolved with is a parameter of the
   event that continues the computation.  Handlers additionally emit the
   continuation events that the source dispatches through its recursive
   agentOrchestrator calls; traces may deliver events in any order, which
   is a superset of the real schedules and therefore sound for the safety
   properties proved below. -/

/-- Task status enum, src/types.ts lines 6-20. -/
inductive TaskStatus
  | RESEARCHING | PLANNING | THINKING | VERIFYING | EXECUTING | WAITING
  | COMPLETED | FAILED | STOPPED | REPLANNING | USER_INPUT_PENDING
  | TEACHING | AWAITING_CREDENTIAL_NAME | AWAITING_PASSPHRASE
deriving DecidableEq, Repr

/-- Manager action tags, src/types.ts line 106 (ManagerDecision.action). -/
inductive ActionKind
  | CLICK | TYPE | GOTO | SUBMIT | ANSWER | FAIL | READ | OPEN_TAB | SEARCH
  | WAIT | LONG_WAIT | CHANGE_TAB | HELP_REPLAN | SCROLL_DOWN | PRESS_ESCAPE
  | EXTRACT_TEXT | SEARCH_PAGE | PARTIAL_SUCCESS | SAVE_CREDENTIAL_VALUE
deriving DecidableEq, Repr

/-- ManagerDecision, src/types.ts lines 104-116.  Optional fields are
Option-valued; a missing field is none. -/
structure ManagerDecision where
  thought : String
  action : ActionKind
  tabName : Option String
  selector : Option String
  text : Option String
  url : Option String
  reason : Option String
  duration : Option Nat
  query : Option String
  value : Option String
deriving DecidableEq, Repr

/-- ResearchData, src/types.ts lines 98-102. -/
structure ResearchData where
  question : String
  answer : String
deriving DecidableEq, Repr

/-- ResearcherDecision, src/types.ts lines 89-94. -/
structure ResearcherDecision where
  thought : String
  facts : List ResearchData
  requires_browser : Bool
  requires_vault : Bool
deriving DecidableEq, Repr

/-- PlannerDecision, src/background.ts lines 166-169. -/
structure PlannerDecision where
  thought : String
  plan : List String
deriving DecidableEq, Repr

/-- VerifierDecision, src/background.ts lines 176-179. -/
structure VerifierDecision where
  is_safe : Bool
  reason : String
deriving DecidableEq, Repr

/-- PresenterDecision, src/background.ts lines 187-190. -/
structure PresenterDecision where
  summary : String
  call_to_action : Option String
deriving DecidableEq, Repr

/-- HistoricalTask, src/types.ts lines 83-86. -/
structure HistoricalTask where
  goal : String
  timestamp : Nat
deriving DecidableEq, Repr

/-- CompletedTask, src/types.ts lines 77-81. -/
structure CompletedTask where
  goal : String
  answer : String
  timestamp : Nat
deriving DecidableEq, Repr

/-- AgentState, src/types.ts lines 51-75.  Task ids are drawn from a
monotone counter, standing in for the task-$(Date.now()) identifiers; id
equality stands in for JS object identity of the task record. -/
structure AgentState where
  id : Nat
  originalGoal : String
  status : TaskStatus
  plan : List String
  currentStep : Nat
  stepFailureCount : Nat
  turn : Nat
  scratchpad : List String
  researchData : List ResearchData
  researcherDecision : Option ResearcherDecision
  finalAnswer : Option String
  failureReason : Option String
  lastFailedAction : Option ManagerDecision
  websiteFailures : List (String × Nat)
  tabs : List (String × Nat)
  activeTabName : String
  isTraining : Bool
  isPartialSuccess : Bool
  recordedActions : List String
  waitTimeoutId : Option Nat
  isDeliberatePlan : Bool
  initialStrategy : Option String
deriving DecidableEq, Repr

/-- Context passed to the Planner on a replan, src/background.ts lines
928-934 (the replanContext object built by handleStuckState). -/
structure ReplanContext where
  failedPlan : List String
  failingStep : Nat
  history : List String
  isUserInitiated : Bool
  websiteFailures : List (String × Nat)
deriving DecidableEq, Repr

/-- Whole-system state: the module-level mutable variables of
src/background.ts (currentTask line 208, pendingCredentialValue line 117),
the durable chrome.storage collections, and the live setTimeout timers.
vaultStore abstracts the credential vault collaborator: src/background.ts
imports encryptAndSaveCredential from ./vault, whose source is not in the
repository snapshot, so (modelled from the spec, section 4.2/6) a
successful encryptAndSaveCredential(name, value) is the durable write that
appends the pair to the store.  pendingCredentialOwner is a ghost field
recording which task stashed the pending value; activeTimers holds the ids
of scheduled, not-yet-fired, not-yet-cleared timeouts; plannerRequests is
a ghost log of the replan requests sent to the Planner. -/
structure SysState where
  currentTask : Option AgentState
  pendingCredentialValue : Option String
  pendingCredentialOwner : Option Nat
  vaultStore : List (String × String)
  historicalTasks : List HistoricalTask
  completedTasks : List CompletedTask
  learnedTools : List (String × String)
  plannerRequests : List ReplanContext
  activeTimers : List Nat
  nextTimerId : Nat
  nextTaskId : Nat
  clock : Nat
deriving DecidableEq, Repr

/-- Outcome of the page observation in runNextTurn, src/background.ts
lines 976-1005: success, the withTimeout rejection path, or the defensive
null-snapshot check. -/
inductive ObserveOutcome
  | okSnap (title : String)
  | timedOut (host : Option String)
  | nullSnap
deriving DecidableEq, Repr

/-- Outcome of the getManagerDecision call in runNextTurn, src/background.ts
lines 1019-1048: a decision, a null decision, the API_LIMIT_REACHED error,
or any other error. -/
inductive ManagerOutcome
  | decided (d : ManagerDecision)
  | noDecision
  | apiLimit
  | errored
deriving DecidableEq, Repr

/-- Oracle bundle for one runNextTurn invocation: results of the awaited
external calls it makes (getStartTab, observeCurrentState,
getManagerDecision, getPresenterDecision). -/
structure TurnOracle where
  startTab : Option Nat
  observe : ObserveOutcome
  manager : ManagerOutcome
  presenterEmpty : Option PresenterDecision
  presenterLimit : Option PresenterDecision
deriving DecidableEq, Repr

/-- Oracle bundle for one handleAction invocation: verifier call outcome
(ok = the geminiCall succeeded, verdict = its parsed result), the
executeAction outcome, extracted text, and tab-creation results. -/
structure ExecEnv where
  verifierOk : Bool
  verifierVerdict : VerifierDecision
  execSuccess : Bool
  extractedText : String
  openTabId : Option Nat
  clickNewTabId : Option Nat
  presenter : Option PresenterDecision
deriving DecidableEq, Repr

/-- Events consumed by the orchestrator: the external control-channel
messages of src/background.ts lines 280-301 plus the internal continuation
events its handlers dispatch (AgentEvent, src/types.ts lines 23-48) plus
timer firings and the deferred resolutions of the fire-and-forget flows.
Oracle payloads carry the values the corresponding awaited calls resolved
with. -/
inductive Event
  | START_TASK (goal : String)
  | STOP_TASK
  | RESET_TASK_SESSION
  | ATTEMPT_STRATEGY (plan : List String)
  | TAKE_OVER
  | GO_AUTONOMOUS
  | RECORDED_ACTION (action : String) (host : Option String)
  | START_TEACHING (goal : String) (activeTab : Option Nat)
  | STOP_TEACHING
  | TEACHING_SUMMARY_RESOLVED (origId : Nat) (summary : Option String) (toolHost : Option String)
  | UNLOCK_VAULT (success : Bool) (planOracle : Option PlannerDecision)
  | DELETE_HISTORICAL_TASK (timestamp : Nat)
  | SAVE_CREDENTIAL (name : String) (vaultOk : Bool)
  | RESEARCH_COMPLETE (d : ResearcherDecision) (vaultUnlocked : Bool)
      (planOracle : Option PlannerDecision) (presenterOracle : Option PresenterDecision)
  | RESEARCH_FAILED
  | PLAN_COMPLETE (plan : List String) (thought : String)
  | PLAN_FAILED
  | ACTION_COMPLETE (payload : Option ManagerDecision) (env : ExecEnv)
  | ACTION_FAILED (d : ManagerDecision) (host : Option String)
  | TEXT_EXTRACTED (txt : String)
  | REPLAN_COMPLETE (plan : List String) (thought : String)
  | REPLAN_FAILED
  | RUN_NEXT_TURN (o : TurnOracle)
  | TIMER_FIRED (tid : Nat)
  | DELIBERATE_PERSONAS (names : List String)
  | DELIBERATE_CONSENSUS (html : String) (plan : List String)
  | DELIBERATE_ERRORED (msg : String)
deriving DecidableEq, Repr

/-- Continuation events a handler dispatches through the recursive
agentOrchestrator calls of the source; recorded as emissions. -/
inductive Emit
  | RUN_NEXT_TURN
  | ACTION_COMPLETE (payload : Option ManagerDecision)
  | ACTION_FAILED (d : ManagerDecision)
  | TEXT_EXTRACTED (txt : String)
  | PLAN_COMPLETE (plan : List String) (thought : String)
  | PLAN_FAILED
deriving DecidableEq, Repr

/-- Apply f to the current task if present (the if-currentTask guards
around task mutations in the source). -/
def withTask (s : SysState) (f : AgentState → AgentState) : SysState :=
  { s with currentTask := s.currentTask.map f }

/-- addToScratchpad, src/background.ts lines 2023-2029: appends to the
scratchpad of the current task, no-op when no task. -/
def addToScratchpad (s : SysState) (msg : String) : SysState :=
  withTask s (fun t => { t with scratchpad := t.scratchpad ++ [msg] })

/-- updateTaskStatus, src/background.ts lines 2012-2021: set the status
and, when a (truthy) reason is given, set failureReason and log it. -/
def updateTaskStatus (s : SysState) (st : TaskStatus) (reason : Option String) : SysState :=
  match reason with
  | some r =>
      if r = "" then withTask s (fun t => { t with status := st })
      else
        addToScratchpad
          (withTask s (fun t => { t with status := st, failureReason := some r }))
          ("Error: " ++ r)
  | none => withTask s (fun t => { t with status := st })

/-- The websiteFailures increment pattern, src/background.ts lines 449 and
990: map entry plus one, created at 1. -/
def bumpFailure (m : List (String × Nat)) (h : String) : List (String × Nat) :=
  match m.lookup h with
  | some n => m.map (fun p => if p.1 = h then (p.1, n + 1) else p)
  | none => m ++ [(h, 1)]

/-- The goal.trim() === blank check of saveHistoricalTask: the goal
consists only of whitespace. -/
def isBlank (str : String) : Bool :=
  str.toList.all (fun c => c = ' ' ∨ c = '\t' ∨ c = '\n' ∨ c = '\r')

/-- saveHistoricalTask, src/background.ts lines 2277-2298: skip blank
goals, de-duplicate by goal, prepend, cap at 10. -/
def saveHistoricalTask (s : SysState) (goal : String) : SysState :=
  if isBlank goal then s
  else if s.historicalTasks.any (fun h => h.goal = goal) then s
  else
    { s with historicalTasks :=
        (({ goal := goal, timestamp := s.clock } : HistoricalTask) :: s.historicalTasks).take 10 }

/-- saveCompletedTask, src/background.ts lines 2249-2265: requires a task
with a finalAnswer, prepends capped at 50, then archives the goal. -/
def saveCompletedTask (s : SysState) : SysState :=
  match s.currentTask with
  | none => s
  | some t =>
      match t.finalAnswer with
      | none => s
      | some ans =>
          let s :=
            { s with completedTasks :=
                (({ goal := t.originalGoal, answer := ans, timestamp := s.clock } : CompletedTask)
                  :: s.completedTasks).take 50 }
          saveHistoricalTask s t.originalGoal

/-- The clearTimeout(currentTask.waitTimeoutId) pattern of handleStopTask
and handleResetTaskSession, src/background.ts lines 863-866 and 883-886. -/
def clearWaitTimeout (s : SysState) : SysState :=
  match s.currentTask with
  | none => s
  | some t =>
      match t.waitTimeoutId with
      | none => s
      | some tid =>
          { s with activeTimers := s.activeTimers.filter (fun u => u ≠ tid),
                   currentTask := some { t with waitTimeoutId := none } }

/-- The last n elements of a list (the JS scratchpad.slice(-10) pattern). -/
def takeRight (l : List String) (n : Nat) : List String :=
  l.drop (l.length - n)

/-- handleStuckState, src/background.ts lines 910-941: log, move to
REPLANNING, and send the Planner a replan request carrying the failed
plan, the failing step (currentStep + 1), the recent history, and the
per-host failure tallies.  The awaited getPlannerDecision resolution
arrives later as REPLAN_COMPLETE or REPLAN_FAILED. -/
def handleStuckState (s : SysState) (isUserInitiated : Bool) : SysState :=
  match s.currentTask with
  | none => s
  | some _ =>
      let s := addToScratchpad s "System Alert: step failed repeatedly. I must re-plan my approach."
      let s := updateTaskStatus s .REPLANNING none
      match s.currentTask with
      | none => s
      | some t =>
          { s with plannerRequests := s.plannerRequests ++
              [{ failedPlan := t.plan, failingStep := t.currentStep + 1,
                 history := takeRight t.scratchpad 10, isUserInitiated := isUserInitiated,
                 websiteFailures := t.websiteFailures }] }

/-- A fresh task record as built by handleStartTask, src/background.ts
lines 817-837. -/
def freshTask (tid : Nat) (goal : String) : AgentState :=
  { id := tid, originalGoal := goal, status := .RESEARCHING, plan := [], currentStep := 0,
    stepFailureCount := 0, turn := 0, scratchpad := ["Goal: " ++ goal], researchData := [],
    researcherDecision := none, finalAnswer := none, failureReason := none,
    lastFailedAction := none, websiteFailures := [], tabs := [], activeTabName := "main",
    isTraining := false, isPartialSuccess := false, recordedActions := [],
    waitTimeoutId := none, isDeliberatePlan := false, initialStrategy := none }

/-- handleStartTask, src/background.ts lines 813-858: archive the prior
goal only when the prior task was USER_INPUT_PENDING, then replace the
current task with a fresh RESEARCHING task.  The awaited triage and
researcher calls are suspension points whose resolutions arrive as later
events (RESEARCH_COMPLETE, RESEARCH_FAILED, DELIBERATE_*). -/
def handleStartTask (s : SysState) (goal : String) : SysState × List Emit :=
  let s :=
    match s.currentTask with
    | some t => if t.status = TaskStatus.USER_INPUT_PENDING then saveHistoricalTask s t.originalGoal else s
    | none => s
  ({ s with currentTask := some (freshTask s.nextTaskId goal),
            nextTaskId := s.nextTaskId + 1 }, [])

/-- handleStopTask, src/background.ts lines 861-873: clear a pending wait
timer, archive the goal when USER_INPUT_PENDING, broadcast the STOPPED
status, and discard the task. -/
def handleStopTask (s : SysState) : SysState × List Emit :=
  match s.currentTask with
  | none => (s, [])
  | some t =>
      let s := clearWaitTimeout s
      let s := if t.status = .USER_INPUT_PENDING then saveHistoricalTask s t.originalGoal else s
      let s := updateTaskStatus s .STOPPED (some "You have requested to stop the autonomous goal.")
      ({ s with currentTask := none }, [])

/-- handleResetTaskSession, src/background.ts lines 880-891: clear a
pending wait timer and silently discard the task; no archiving, no
STOPPED broadcast, no-op when no task. -/
def handleResetTaskSession (s : SysState) : SysState × List Emit :=
  match s.currentTask with
  | none => (s, [])
  | some _ =>
      let s := clearWaitTimeout s
      ({ s with currentTask := none }, [])

/-- handleTakeOver, src/background.ts lines 893-899. -/
def handleTakeOver (s : SysState) : SysState × List Emit :=
  match s.currentTask with
  | none => (s, [])
  | some _ =>
      let s := withTask s (fun t => { t with isTraining := true })
      (updateTaskStatus s .USER_INPUT_PENDING
        (some "Waiting for user to demonstrate the next step."), [])

/-- handleGoAutonomous, src/background.ts lines 901-908. -/
def handleGoAutonomous (s : SysState) : SysState × List Emit :=
  match s.currentTask with
  | none => (s, [])
  | some _ =>
      let s := withTask s (fun t => { t with isTraining := false })
      let s := addToScratchpad s "System: User has clicked Go Autonomous. Stopping learning mode and triggering a replan."
      (handleStuckState s true, [])

/-- handleRecordedAction plus saveLearnedAction, src/background.ts lines
628-642 and 2172-2195.  host is the oracle for the active tab hostname
(none when the tab is not an http page and learning is skipped). -/
def handleRecordedAction (s : SysState) (action : String) (host : Option String) :
    SysState × List Emit :=
  match s.currentTask with
  | none => (s, [])
  | some t =>
      let s :=
        if t.isTraining ∧ t.status = .USER_INPUT_PENDING then
          let s := addToScratchpad s ("User demonstrated action: " ++ action)
          match host with
          | some h =>
              let desc := (t.plan.get? t.currentStep).getD t.originalGoal
              { s with learnedTools := s.learnedTools ++ [(h, desc)] }
          | none => s
        else s
      let s :=
        if t.status = .TEACHING then
          let s := withTask s (fun u => { u with recordedActions := u.recordedActions ++ [action] })
          addToScratchpad s ("Action Recorded: " ++ action)
        else s
      (s, [])

/-- handleStartTeaching, src/background.ts lines 509-540. -/
def handleStartTeaching (s : SysState) (goal : String) (activeTab : Option Nat) : SysState × List Emit :=
  let base : AgentState :=
    { id := s.nextTaskId, originalGoal := goal, status := .TEACHING, plan := [], currentStep := 0,
      stepFailureCount := 0, turn := 0,
      scratchpad := ["Teaching session started for: " ++ goal], researchData := [],
      researcherDecision := none, finalAnswer := none, failureReason := none,
      lastFailedAction := none, websiteFailures := [],
      tabs := (match activeTab with | some tid => [("main", tid)] | none => []),
      activeTabName := "main", isTraining := true, isPartialSuccess := false,
      recordedActions := [], waitTimeoutId := none, isDeliberatePlan := false,
      initialStrategy := none }
  ({ s with currentTask := some base, nextTaskId := s.nextTaskId + 1 }, [])

/-- handleStopTeaching, src/background.ts lines 573-593 (the part before
the awaited summarization): only acts in TEACHING; the summarization
resolution arrives later as TEACHING_SUMMARY_RESOLVED. -/
def handleStopTeaching (s : SysState) : SysState × List Emit :=
  match s.currentTask with
  | none => (s, [])
  | some t =>
      if t.status = .TEACHING then
        (addToScratchpad s "Teaching session finished. Now summarizing what was learned.", [])
      else (s, [])

/-- The continuation of handleStopTeaching after getTeacherSummaryDecision
resolves, src/background.ts lines 588-607: the resolution is applied only
when the task it started with (origId) is still the active task; summary
is none when the Teacher call failed; toolHost is the oracle for the
active tab hostname used by saveLearnedTool (none = non-http tab, skip). -/
def teachingSummaryResolved (s : SysState) (origId : Nat) (summary : Option String)
    (toolHost : Option String) : SysState × List Emit :=
  match s.currentTask with
  | none => (s, [])
  | some t =>
      if t.id ≠ origId then (s, [])
      else
        let sumr := summary.getD "I recorded the steps you took, but I was unable to create a summary."
        let s := withTask s (fun u => { u with finalAnswer := some sumr })
        let s :=
          match toolHost with
          | some h =>
              if t.recordedActions = [] then s
              else { s with learnedTools := s.learnedTools ++ [(h, t.originalGoal)] }
          | none => s
        let s := updateTaskStatus s .COMPLETED none
        (saveCompletedTask s, [])

/-- handleSaveCredential, src/background.ts lines 609-626: only in
AWAITING_CREDENTIAL_NAME with a pending value; vaultOk is the oracle for
whether encryptAndSaveCredential succeeded (modelled from the spec: the
vault module itself is outside the snapshot; success appends the
name/value pair to the durable store, failure writes nothing and the
thrown error fails the task).  On success the pending slot is cleared and
the turn loop is resumed; on failure the pending slot is left as is. -/
def handleSaveCredential (s : SysState) (name : String) (vaultOk : Bool) :
    SysState × List Emit :=
  match s.currentTask with
  | some t =>
      if t.status = .AWAITING_CREDENTIAL_NAME then
        match s.pendingCredentialValue with
        | some v =>
            if vaultOk then
              let s := { s with vaultStore := s.vaultStore ++ [(name, v)] }
              let s := addToScratchpad s ("User saved a credential named " ++ name ++ ". The agent can now use the placeholder.")
              let s := { s with pendingCredentialValue := none, pendingCredentialOwner := none }
              (s, [Emit.RUN_NEXT_TURN])
            else
              let s := addToScratchpad s "Error saving credential."
              (updateTaskStatus s .FAILED (some "Could not save credential."), [])
        | none => (addToScratchpad s "Warning: Received SAVE_CREDENTIAL event in an invalid state.", [])
      else (addToScratchpad s "Warning: Received SAVE_CREDENTIAL event in an invalid state.", [])
  | none => (addToScratchpad s "Warning: Received SAVE_CREDENTIAL event in an invalid state.", [])

/-- handleUnlockVault, src/background.ts lines 542-571.  success is the
oracle for unlockVault(passphrase); planOracle for getPlannerDecision. -/
def handleUnlockVault (s : SysState) (success : Bool) (planOracle : Option PlannerDecision) :
    SysState × List Emit :=
  match s.currentTask with
  | none => (s, [])
  | some t =>
      if success then
        match t.researcherDecision with
        | none =>
            let s := addToScratchpad s "Error: Cannot re-run research step. Researcher decision is missing."
            (updateTaskStatus s .FAILED (some "Could not resume task after unlocking vault."), [])
        | some _ =>
            let s := addToScratchpad s "Vault unlocked successfully. Proceeding to planning phase."
            let s := updateTaskStatus s .PLANNING none
            match planOracle with
            | some pd => (s, [Emit.PLAN_COMPLETE pd.plan pd.thought])
            | none => (s, [Emit.PLAN_FAILED])
      else (addToScratchpad s "Vault unlock failed. Please try the passphrase again.", [])

/-- handleDeleteHistoricalTask, src/background.ts lines 2300-2305. -/
def handleDeleteHistoricalTask (s : SysState) (timestamp : Nat) : SysState × List Emit :=
  ({ s with historicalTasks := s.historicalTasks.filter (fun h => h.timestamp ≠ timestamp) }, [])

/-- getVerifierDecision, src/background.ts lines 1392-1416: returns the
parsed verdict when the geminiCall succeeded, and on any error the catch
block returns a default verdict with is_safe true. -/
def getVerifierDecision (ok : Bool) (verdict : VerifierDecision) : VerifierDecision :=
  if ok then verdict
  else { is_safe := true, reason := "Verifier agent failed, defaulting to safe." }

/-- The needsVerification predicate of handleAction, src/background.ts
line 1060: GOTO or OPEN_TAB, or a CLICK whose selector contains the letter
a after lowercasing. -/
def strToLower (str : String) : String :=
  String.mk (str.toList.map Char.toLower)

/-- src/background.ts line 1060. -/
def needsVerification (d : ManagerDecision) : Bool :=
  (d.action == ActionKind.GOTO || d.action == ActionKind.OPEN_TAB) ||
  (d.action == ActionKind.CLICK &&
    (match d.selector with
     | some sel => (strToLower sel).toList.contains 'a'
     | none => false))

/-- The ten switch cases of handleAction that go through executeAction on
a named tab, src/background.ts lines 1120-1129. -/
def isPageAction : ActionKind → Bool
  | .CLICK | .TYPE | .GOTO | .SUBMIT | .SEARCH | .SCROLL_DOWN | .PRESS_ESCAPE
  | .READ | .EXTRACT_TEXT | .SEARCH_PAGE => true
  | _ => false

/-- The shared tail of handleAction, src/background.ts lines 1203-1230:
detect a tab opened by a successful CLICK or SUBMIT and switch to it, then
dispatch ACTION_COMPLETE or ACTION_FAILED (except for EXTRACT_TEXT, whose
continuation was dispatched from inside executeAction). -/
def finishAction (s : SysState) (d : ManagerDecision) (env : ExecEnv) (success : Bool) :
    SysState × List Emit :=
  let s :=
    if success ∧ (d.action = .CLICK ∨ d.action = .SUBMIT) then
      match env.clickNewTabId with
      | some nid =>
          let s := withTask s (fun t =>
            { t with tabs := t.tabs ++ [("tab_" ++ toString (t.tabs.length + 1), nid)],
                     activeTabName := "tab_" ++ toString (t.tabs.length + 1) })
          addToScratchpad s "System: Detected new tab opened by action. Switched focus."
      | none => s
    else s
  if d.action = .EXTRACT_TEXT then (s, [])
  else if success then (s, [Emit.ACTION_COMPLETE none])
  else (s, [Emit.ACTION_FAILED d])

/-- The switch body of handleAction from the EXECUTING transition onward,
src/background.ts lines 1076-1231. -/
def handleActionExec (s : SysState) (d : ManagerDecision) (env : ExecEnv) :
    SysState × List Emit :=
  match s.currentTask with
  | none => (s, [])
  | some t =>
      let s := updateTaskStatus s .EXECUTING none
      let s :=
        if d.thought = "" then
          addToScratchpad s "Turn: Warning - The manager decided on an action without providing a thought."
        else addToScratchpad s ("Turn: " ++ d.thought)
      match d.action with
      | .OPEN_TAB =>
          (match env.openTabId with
           | some nid =>
               let newTabName := d.tabName.getD ("tab_" ++ toString (t.tabs.length + 1))
               let s := withTask s (fun u =>
                 { u with tabs := u.tabs ++ [(newTabName, nid)], activeTabName := newTabName })
               let s := addToScratchpad s ("Action: Opened new tab named " ++ newTabName ++ " and switched focus.")
               finishAction s d env true
           | none => finishAction (addToScratchpad s "Failed to open new tab.") d env false)
      | .CHANGE_TAB =>
          (match d.tabName with
           | none => finishAction (addToScratchpad s "Failed to change tab: no tab name.") d env false
           | some nm =>
               match t.tabs.lookup nm with
               | none => finishAction (addToScratchpad s ("Failed to change tab: Tab name " ++ nm ++ " does not exist.")) d env false
               | some _ =>
                   let s := withTask s (fun u => { u with activeTabName := nm })
                   finishAction (addToScratchpad s ("Action: Changed active tab to " ++ nm ++ ".")) d env true)
      | .WAIT =>
          finishAction (addToScratchpad s "Action: Waiting for page to settle.") d env true
      | .LONG_WAIT =>
          let s := updateTaskStatus s .WAITING none
          let s := addToScratchpad s "Action: Beginning a long wait for a generative process to complete. The agent will resume in 5 minutes."
          let tid := s.nextTimerId
          let s := { s with nextTimerId := tid + 1, activeTimers := tid :: s.activeTimers }
          let s := withTask s (fun u => { u with waitTimeoutId := some tid })
          (s, [])
      | .SAVE_CREDENTIAL_VALUE =>
          (match d.value with
           | some v =>
               let s := { s with pendingCredentialValue := some v,
                                 pendingCredentialOwner := some t.id }
               let s := updateTaskStatus s .AWAITING_CREDENTIAL_NAME none
               (addToScratchpad s "I need to save a credential. Please provide a name for it.", [])
           | none =>
               (addToScratchpad s "System Alert: SAVE_CREDENTIAL_VALUE action was called without a value.",
                [Emit.ACTION_FAILED d]))
      | .HELP_REPLAN =>
          let s := addToScratchpad s "Action: Agent has requested help and is triggering a replan."
          (handleStuckState s false, [])
      | .ANSWER =>
          (match env.presenter with
           | some p =>
               let fa := p.summary ++ (match p.call_to_action with
                 | some c => "\n\n" ++ c
                 | none => "")
               let s := withTask s (fun u => { u with finalAnswer := some fa, isPartialSuccess := false })
               let s := updateTaskStatus s .COMPLETED none
               (saveCompletedTask s, [])
           | none => (updateTaskStatus s .FAILED (some "Presenter agent failed to generate a final answer."), []))
      | .PARTIAL_SUCCESS =>
          (match env.presenter with
           | some p =>
               let fa := p.summary ++ (match p.call_to_action with
                 | some c => "\n\n" ++ c
                 | none => "")
               let s := withTask s (fun u => { u with finalAnswer := some fa, isPartialSuccess := true })
               let s := updateTaskStatus s .COMPLETED none
               (saveCompletedTask s, [])
           | none => (updateTaskStatus s .FAILED (some "Presenter agent failed to generate a final answer."), []))
      | .FAIL => (updateTaskStatus s .FAILED d.reason, [])
      | a =>
          -- CLICK, TYPE, GOTO, SUBMIT, SEARCH, SCROLL_DOWN, PRESS_ESCAPE,
          -- READ, EXTRACT_TEXT, SEARCH_PAGE: src/background.ts lines 1120-1143.
          let targetName := d.tabName.getD t.activeTabName
          match t.tabs.lookup targetName with
          | none =>
              finishAction (addToScratchpad s ("Failed to execute action. Agent tried to act on a tab named " ++ targetName ++ " which does not exist.")) d env false
          | some _ =>
              let s := withTask s (fun u => { u with activeTabName := targetName })
              let execKind := if a = .READ then ActionKind.EXTRACT_TEXT else a
              let success := env.execSuccess
              let s := if success then s else addToScratchpad s "Failed to execute action."
              let emitted :=
                if execKind = .EXTRACT_TEXT ∧ success then [Emit.TEXT_EXTRACTED env.extractedText]
                else []
              let pr := finishAction s d env success
              (pr.1, emitted ++ pr.2)

/-- handleAction, src/background.ts lines 1051-1231: the verification
gate followed by the action switch.  When the verifier returns an explicit
unsafe verdict the action is not executed: the task is left in VERIFYING
and an ACTION_FAILED continuation is dispatched (which the VERIFYING
dispatcher branch ignores, exactly as in the source). -/
def handleAction (s : SysState) (d : ManagerDecision) (env : ExecEnv) :
    SysState × List Emit :=
  match s.currentTask with
  | none => (s, [])
  | some _ =>
      if needsVerification d ∧ d.url.isSome then
        let s := updateTaskStatus s .VERIFYING none
        let s := addToScratchpad s ("Verifying URL: " ++ d.url.getD "")
        let v := getVerifierDecision env.verifierOk env.verifierVerdict
        if v.is_safe = false then
          let s := addToScratchpad s "Security Alert: Navigation blocked."
          (s, [Emit.ACTION_FAILED d])
        else
          handleActionExec (addToScratchpad s "Verification successful. Proceeding with action.") d env
      else handleActionExec s d env

/-- The observation and manager phase of runNextTurn, src/background.ts
lines 972-1049: runs once a tab is available. -/
def runNextTurnObserve (s : SysState) (o : TurnOracle) : SysState × List Emit :=
  let s := withTask s (fun u => { u with turn := u.turn + 1 })
  let s := updateTaskStatus s .THINKING none
  match o.observe with
  | .timedOut host =>
      -- lines 985-998: observation failure feeds the replan path
      let h := host.getD "unknown_site"
      let s := withTask s (fun u =>
        { u with websiteFailures := bumpFailure u.websiteFailures h })
      let s := addToScratchpad s ("System Alert: Failed to observe " ++ h ++ ". Triggering a replan.")
      (handleStuckState s false, [])
  | .nullSnap =>
      (updateTaskStatus s .FAILED (some "Could not observe the current tab."), [])
  | .okSnap title =>
      let s := addToScratchpad s ("Observation: The page title is " ++ title ++ ". Snapshot has been truncated for efficiency.")
      match o.manager with
      | .decided d => (s, [Emit.ACTION_COMPLETE (some d)])
      | .noDecision =>
          let s := addToScratchpad s "System Alert: The Manager agent failed to produce a decision. Attempting to recover by replanning."
          (handleStuckState s false, [])
      | .errored =>
          let s := addToScratchpad s "System Alert: The Manager agent encountered an error. Attempting to recover by replanning."
          (handleStuckState s false, [])
      | .apiLimit =>
          let s := addToScratchpad s "System Alert: API_LIMIT_REACHED."
          match o.presenterLimit with
          | some p =>
              let fa := p.summary ++ (match p.call_to_action with
                | some c => "\n\n" ++ c
                | none => "")
              let s := withTask s (fun u =>
                { u with finalAnswer := some fa, isPartialSuccess := true })
              let s := updateTaskStatus s .COMPLETED none
              (saveCompletedTask s, [])
          | none =>
              (updateTaskStatus s .STOPPED
                (some "API limit reached during partial autonomous execution."), [])

/-- runNextTurn, src/background.ts lines 943-1049. -/
def runNextTurn (s : SysState) (o : TurnOracle) : SysState × List Emit :=
  match s.currentTask with
  | none => (s, [])
  | some t =>
      if [TaskStatus.COMPLETED, .FAILED, .STOPPED, .USER_INPUT_PENDING, .TEACHING,
          .RESEARCHING, .WAITING, .AWAITING_CREDENTIAL_NAME,
          .AWAITING_PASSPHRASE].contains t.status then (s, [])
      else if t.plan = [] then
        -- lines 950-960: no browser needed, present directly from research
        match o.presenterEmpty with
        | some p =>
            let s := withTask s (fun u => { u with finalAnswer := some p.summary })
            let s := updateTaskStatus s .COMPLETED none
            (saveCompletedTask s, [])
        | none =>
            (updateTaskStatus s .FAILED
              (some "Presenter agent failed to generate a final answer from research data."), [])
      else if t.tabs.isEmpty then
        -- lines 962-969: acquire a start tab if the tabs map is empty
        match o.startTab with
        | none =>
            (updateTaskStatus s .FAILED
              (some "Could not get a valid browser tab to start the task."), [])
        | some tid =>
            runNextTurnObserve
              (withTask (addToScratchpad s "Starting task on a new tab.")
                (fun u => { u with tabs := [("main", tid)] })) o
      else runNextTurnObserve s o

/-- The shared successful-step-completion block, src/background.ts lines
433-439 and 484-490: reset the failure bookkeeping and advance
currentStep, capped strictly below the last plan index. -/
def stepAdvance (t : AgentState) : AgentState :=
  { t with lastFailedAction := none, stepFailureCount := 0,
           currentStep :=
             if t.currentStep < t.plan.length - 1 then t.currentStep + 1 else t.currentStep }

/-- The EXECUTING ACTION_FAILED branch, src/background.ts lines 443-463:
tally the host failure, bump stepFailureCount, record the failed action,
and either escalate to replanning (at three or more) or re-run the turn. -/
def executingActionFailed (s : SysState) (d : ManagerDecision) (host : Option String) :
    SysState × List Emit :=
  let s :=
    match host with
    | some h =>
        let s := withTask s (fun t => { t with websiteFailures := bumpFailure t.websiteFailures h })
        addToScratchpad s ("System Alert: Incrementing failure count for " ++ h ++ ".")
    | none => s
  let s := withTask s (fun t =>
    { t with stepFailureCount := t.stepFailureCount + 1, lastFailedAction := some d })
  match s.currentTask with
  | none => (s, [])
  | some t =>
      if t.stepFailureCount ≥ 3 then
        let s := addToScratchpad s "System Alert: The agent has failed 3 times on this step. The current page may be problematic. Triggering a replan."
        (handleStuckState s false, [])
      else (s, [Emit.RUN_NEXT_TURN])

/-- The deliberate-flow segment after persona generation, src/background.ts
lines 731-736: applied only when some task is still active. -/
def deliberatePersonas (s : SysState) (names : List String) : SysState × List Emit :=
  match s.currentTask with
  | none => (s, [])
  | some _ =>
      let s := addToScratchpad s ("Personas generated: " ++ String.intercalate ", " names)
      (updateTaskStatus s .THINKING none, [])

/-- The deliberate-flow completion after the consensus call resolves,
src/background.ts lines 787-801: guarded only by currentTask being
non-null, so it mutates whatever task is active at resolution time. -/
def deliberateConsensus (s : SysState) (html : String) (plan : List String) :
    SysState × List Emit :=
  match s.currentTask with
  | none => (s, [])
  | some _ =>
      let s := addToScratchpad s "Final consensus generated."
      let callToAction := "<p><em>This is a strategic solution. If you wish, the system can autonomously attempt to execute the browser-based steps of this plan.</em></p>"
      let s := withTask s (fun t =>
        { t with finalAnswer := some (html ++ callToAction), plan := plan,
                 isDeliberatePlan := true })
      let s := updateTaskStatus s .COMPLETED none
      (saveCompletedTask s, [])

/-- The deliberate-flow catch block, src/background.ts lines 803-810. -/
def deliberateErrored (s : SysState) (msg : String) : SysState × List Emit :=
  match s.currentTask with
  | none => (s, [])
  | some _ => (updateTaskStatus s .FAILED (some msg), [])

/-- The setTimeout callback of the LONG_WAIT action, src/background.ts
lines 1155-1162: fires only if the timer was not cleared; the callback
checks that a task exists and is WAITING (not which task it is), clears
the handle, and dispatches ACTION_COMPLETE, which in WAITING runs the
successful-step-completion block (lines 484-490). -/
def timerFired (s : SysState) (tid : Nat) : SysState × List Emit :=
  if s.activeTimers.contains tid then
    let s := { s with activeTimers := s.activeTimers.filter (fun u => u ≠ tid) }
    match s.currentTask with
    | none => (s, [])
    | some t =>
        if t.status = .WAITING then
          let s := addToScratchpad s "Long wait complete. Resuming task."
          let s := withTask s (fun u => { u with waitTimeoutId := none })
          (withTask s stepAdvance, [Emit.RUN_NEXT_TURN])
        else (s, [])
  else (s, [])

/-- The RESEARCHING branch of the dispatcher, src/background.ts lines
363-407.  vaultUnlocked is the oracle for isVaultUnlocked(); planOracle
and presenterOracle for the awaited planner and presenter calls. -/
def researchComplete (s : SysState) (d : ResearcherDecision) (vaultUnlocked : Bool)
    (planOracle : Option PlannerDecision) (presenterOracle : Option PresenterDecision) :
    SysState × List Emit :=
  let s := withTask s (fun t =>
    { t with researchData := d.facts, researcherDecision := some d })
  let s := addToScratchpad s "Research complete. Facts learned."
  if d.requires_vault ∧ vaultUnlocked = false then
    let s := addToScratchpad s "Task requires vault access, but vault is locked. Awaiting passphrase."
    (updateTaskStatus s .AWAITING_PASSPHRASE none, [])
  else if d.requires_browser then
    let s := updateTaskStatus s .PLANNING none
    match planOracle with
    | some pd => (s, [Emit.PLAN_COMPLETE pd.plan pd.thought])
    | none => (s, [Emit.PLAN_FAILED])
  else
    match presenterOracle with
    | some p =>
        let s := withTask s (fun t => { t with finalAnswer := some p.summary })
        let s := updateTaskStatus s .COMPLETED none
        (saveCompletedTask s, [])
    | none =>
        let fa := String.intercalate "\n" (d.facts.map (fun f => f.answer))
        let s := withTask s (fun t => { t with finalAnswer := some fa })
        let s := updateTaskStatus s .COMPLETED none
        (saveCompletedTask s, [])

/-- agentOrchestrator, src/background.ts lines 305-507: the event
dispatcher.  Events with no matching branch for the current status are
no-ops, exactly as in the source switch. -/
def agentOrchestrator (s : SysState) (e : Event) : SysState × List Emit :=
  match e with
  | .STOP_TASK => handleStopTask s
  | .START_TASK goal => handleStartTask s goal
  | .RESET_TASK_SESSION => handleResetTaskSession s
  | .ATTEMPT_STRATEGY plan =>
      -- lines 321-330
      (match s.currentTask with
       | none => (s, [])
       | some _ =>
           let s := withTask s (fun t =>
             { t with isDeliberatePlan := true, initialStrategy := t.finalAnswer,
                      finalAnswer := none, plan := plan })
           (updateTaskStatus s .PLANNING none,
            [Emit.PLAN_COMPLETE plan "Executing deliberate strategy."]))
  | .TAKE_OVER => handleTakeOver s
  | .GO_AUTONOMOUS => handleGoAutonomous s
  | .RECORDED_ACTION a host => handleRecordedAction s a host
  | .START_TEACHING goal tab => handleStartTeaching s goal tab
  | .STOP_TEACHING => handleStopTeaching s
  | .TEACHING_SUMMARY_RESOLVED origId summary toolHost =>
      teachingSummaryResolved s origId summary toolHost
  | .UNLOCK_VAULT ok planOracle => handleUnlockVault s ok planOracle
  | .DELETE_HISTORICAL_TASK ts => handleDeleteHistoricalTask s ts
  | .SAVE_CREDENTIAL name vaultOk => handleSaveCredential s name vaultOk
  | .TIMER_FIRED tid => timerFired s tid
  | .DELIBERATE_PERSONAS names => deliberatePersonas s names
  | .DELIBERATE_CONSENSUS html plan => deliberateConsensus s html plan
  | .DELIBERATE_ERRORED msg => deliberateErrored s msg
  | .RUN_NEXT_TURN o =>
      (match s.currentTask with
       | none => (s, [])
       | some _ => runNextTurn s o)
  | .RESEARCH_COMPLETE d vaultUnlocked planOracle presenterOracle =>
      (match s.currentTask with
       | none => (s, [])
       | some t =>
           if t.status = .RESEARCHING then
             researchComplete s d vaultUnlocked planOracle presenterOracle
           else (s, []))
  | .RESEARCH_FAILED =>
      (match s.currentTask with
       | none => (s, [])
       | some t =>
           if t.status = .RESEARCHING then
             (updateTaskStatus s .FAILED (some "Researcher failed to gather necessary facts."), [])
           else (s, []))
  | .PLAN_COMPLETE plan thought =>
      (match s.currentTask with
       | none => (s, [])
       | some t =>
           if t.status = .PLANNING then
             let s := withTask s (fun u => { u with plan := plan })
             let s := addToScratchpad s ("Planner thought: " ++ thought)
             (s, [Emit.RUN_NEXT_TURN])
           else (s, []))
  | .PLAN_FAILED =>
      (match s.currentTask with
       | none => (s, [])
       | some t =>
           if t.status = .PLANNING then
             (updateTaskStatus s .FAILED (some "Planner failed to create a plan."), [])
           else (s, []))
  | .ACTION_COMPLETE payload env =>
      (match s.currentTask with
       | none => (s, [])
       | some t =>
           match t.status with
           | .THINKING =>
               (match payload with
                | some d => handleAction s d env
                | none => (s, []))
           | .EXECUTING => (withTask s stepAdvance, [Emit.RUN_NEXT_TURN])
           | .WAITING => (withTask s stepAdvance, [Emit.RUN_NEXT_TURN])
           | .TEACHING => (withTask s stepAdvance, [Emit.RUN_NEXT_TURN])
           | _ => (s, []))
  | .ACTION_FAILED d host =>
      (match s.currentTask with
       | none => (s, [])
       | some t =>
           match t.status with
           | .THINKING =>
               (updateTaskStatus s .FAILED (some "Manager (Gemini) failed to make a decision."), [])
           | .EXECUTING => executingActionFailed s d host
           | _ => (s, []))
  | .TEXT_EXTRACTED txt =>
      (match s.currentTask with
       | none => (s, [])
       | some t =>
           if t.status = .EXECUTING then
             (addToScratchpad s ("Extracted Text: " ++ txt), [Emit.RUN_NEXT_TURN])
           else (s, []))
  | .REPLAN_COMPLETE plan thought =>
      (match s.currentTask with
       | none => (s, [])
       | some t =>
           if t.status = .REPLANNING then
             let s := withTask s (fun u =>
               { u with plan := plan, currentStep := 0, stepFailureCount := 0,
                        lastFailedAction := none })
             let s := addToScratchpad s ("Replanning successful. New Plan: " ++ thought)
             (s, [Emit.RUN_NEXT_TURN])
           else (s, []))
  | .REPLAN_FAILED =>
      (match s.currentTask with
       | none => (s, [])
       | some t =>
           if t.status = .REPLANNING then
             (updateTaskStatus s .FAILED
               (some "Replanning failed. The agent is unable to find a new path forward."), [])
           else (s, []))

/-- Deliver a list of events in order, discarding emissions (any schedule
of deliveries is representable as an event list, so safety properties
quantified over event lists cover all real schedules). -/
def runEvents (s : SysState) (es : List Event) : SysState :=
  es.foldl (fun s e => (agentOrchestrator s e).1) s

/-- The state at service-worker startup, src/background.ts lines 263-267:
no task, empty pending slot, empty stores. -/
def initState : SysState :=
  { currentTask := none, pendingCredentialValue := none, pendingCredentialOwner := none,
    vaultStore := [], historicalTasks := [], completedTasks := [], learnedTools := [],
    plannerRequests := [], activeTimers := [], nextTimerId := 0, nextTaskId := 1, clock := 0 }

/- ===== Decision Service Client (geminiCall), src/background.ts 1861-2010 ===== -/

/-- One transport attempt outcome for geminiCall.  ok carries the response
body; httpErr is a non-ok HTTP status; netErr is a rejected fetch, which
covers both network failures and the 90-second per-attempt AbortController
timeout (lines 1887-1898). -/
inductive TransportResult
  | ok (raw : String) (envelope : Option (Option String))
  | httpErr (status : Nat)
  | netErr
deriving Repr

/-- Oracle bundle for one geminiCall run with expectJson = true.
attempts gives the outcome of the i-th fetch (1-based).  For an ok
attempt, raw is responseText and envelope describes JSON.parse of the
envelope: none when the body is not valid JSON (SyntaxError), some none
when it parses but has no text part, some (some txt) when the model text
is txt.  jsonOk decides whether JSON.parse succeeds on a candidate
payload string.  repairText is the text the single self-repair call
(line 1981, a recursive geminiCall with expectJson = false) resolved
with, or none when that call itself threw. -/
structure GeminiEnv where
  attempts : Nat → TransportResult
  jsonOk : String → Bool
  repairText : Option String

/-- Result classification of a geminiCall run. -/
inductive GeminiOutcome
  | success (payload : String)
  | raised
deriving DecidableEq, Repr

/-- A geminiCall run together with its observable effort: fetch attempts
made, the base exponential backoff delays slept between retries (the
2 to-the attempt times 1000 ms term of line 1920; the uniform jitter is
abstracted away), and how many self-repair calls were issued. -/
structure GeminiRun where
  outcome : GeminiOutcome
  attemptsUsed : Nat
  backoffDelays : List Nat
  repairCalls : Nat
deriving DecidableEq, Repr

/-- Transport phase result: a body to parse, or a raise. -/
inductive TransportPhase
  | gotBody (raw : String) (envelope : Option (Option String)) (attemptsUsed : Nat) (delays : List Nat)
  | noSuccess (attemptsUsed : Nat) (delays : List Nat)
deriving Repr

/-- The retry loop of geminiCall, src/background.ts lines 1884-1928.
maxRetries is 5.  A 503 or 429 status and any fetch rejection are retried
with exponential backoff until the attempt cap, at which point the error
is thrown; any other non-ok status breaks out of the loop and the final
check (lines 1925-1928) throws without further attempts. -/
def transportGo (env : GeminiEnv) : Nat → Nat → List Nat → TransportPhase
  | 0, attempt, delays => .noSuccess attempt delays
  | fuel + 1, attempt, delays =>
      let attempt := attempt + 1
      match env.attempts attempt with
      | .ok raw envelope => .gotBody raw envelope attempt delays
      | .httpErr status =>
          if status = 503 ∨ status = 429 then
            if attempt ≥ 5 then .noSuccess attempt delays
            else transportGo env fuel attempt (delays ++ [2 ^ attempt * 1000])
          else .noSuccess attempt delays
      | .netErr =>
          if attempt ≥ 5 then .noSuccess attempt delays
          else transportGo env fuel attempt (delays ++ [2 ^ attempt * 1000])

/-- The whole transport phase with maxRetries = 5 (line 1867). -/
def transportPhase (env : GeminiEnv) : TransportPhase := transportGo env 5 0 []

/-- Left brace character, written by code point to keep it out of string
literals. -/
def lbrace : Char := Char.ofNat 123

/-- Right brace character. -/
def rbrace : Char := Char.ofNat 125

/-- Left square bracket character. -/
def lbrack : Char := Char.ofNat 91

/-- Right square bracket character. -/
def rbrack : Char := Char.ofNat 93

/-- indexOf for a character over the character list of a string. -/
def idxOfChar : List Char → Char → Nat → Option Nat
  | [], _, _ => none
  | x :: xs, c, i => if x = c then some i else idxOfChar xs c (i + 1)

/-- lastIndexOf for a character over the character list of a string. -/
def lastIdxOfChar (cs : List Char) (c : Char) : Option Nat :=
  match idxOfChar cs.reverse c 0 with
  | none => none
  | some i => some (cs.length - 1 - i)

/-- substring(a, b) over a character list. -/
def subChars (cs : List Char) (a b : Nat) : String :=
  String.mk ((cs.drop a).take (b - a))

/-- The bracket-substring extraction of geminiCall, src/background.ts
lines 1946-1956 (and identically 1983-1993): the substring between the
first left brace and the last right brace when the latter comes strictly
later, else between the first and last square brackets, else nothing. -/
def extractJsonString (txt : String) : Option String :=
  let cs := txt.toList
  let jsonStart := idxOfChar cs lbrace 0
  let jsonEnd := lastIdxOfChar cs rbrace
  let arrayStart := idxOfChar cs lbrack 0
  let arrayEnd := lastIdxOfChar cs rbrack
  match jsonStart, jsonEnd with
  | some a, some b =>
      if a < b then some (subChars cs a (b + 1))
      else
        match arrayStart, arrayEnd with
        | some c, some e => if c < e then some (subChars cs c (e + 1)) else none
        | _, _ => none
  | _, _ =>
      match arrayStart, arrayEnd with
      | some c, some e => if c < e then some (subChars cs c (e + 1)) else none
      | _, _ => none

/-- The control-character stripping of line 1962: remove newlines,
carriage returns and tabs. -/
def stripCtl (str : String) : String :=
  String.mk (str.toList.filter (fun c => c ≠ '\n' ∧ c ≠ '\r' ∧ c ≠ '\t'))

/-- The parse phase of geminiCall for expectJson = true, src/background.ts
lines 1930-2009, returning the outcome and the number of self-repair
calls issued.  When the envelope body is not valid JSON, JSON.parse at
line 1931 throws a SyntaxError that reaches the outer catch, which issues
exactly one repair call (the recursive geminiCall with expectJson = false
cannot recurse into this branch again) and parses its bracket-extracted
substring once.  When the envelope parses but the embedded payload does
not, the inner catch (lines 1943-1969) attempts the local
bracket-extraction repair with control-character stripping and, if that
fails, throws a plain Error; a plain Error is not a SyntaxError, so the
outer catch (line 1975) re-raises it without any repair call. -/
def geminiParsePhase (env : GeminiEnv) (envelope : Option (Option String)) :
    GeminiOutcome × Nat :=
  match envelope with
  | none =>
      (match env.repairText with
       | none => (.raised, 1)
       | some corrected =>
           match extractJsonString corrected with
           | some js => if env.jsonOk js then (.success js, 1) else (.raised, 1)
           | none => (.raised, 1))
  | some none => (.raised, 0)
  | some (some textContent) =>
      if env.jsonOk textContent then (.success textContent, 0)
      else
        match extractJsonString textContent with
        | some js =>
            let sjs := stripCtl js
            if env.jsonOk sjs then (.success sjs, 0) else (.raised, 0)
        | none => (.raised, 0)

/-- geminiCall with expectJson = true, src/background.ts lines 1861-2010:
transport phase then parse phase. -/
def geminiCall (env : GeminiEnv) : GeminiRun :=
  match transportPhase env with
  | .noSuccess n ds => { outcome := .raised, attemptsUsed := n, backoffDelays := ds, repairCalls := 0 }
  | .gotBody _ envelope n ds =>
      let (o, rc) := geminiParsePhase env envelope
      { outcome := o, attemptsUsed := n, backoffDelays := ds, repairCalls := rc }

/-- Transient transport outcomes in the sense of the retry policy: a
fetch rejection (network failure or per-attempt timeout) or a 503 or 429
status. -/
def isTransient : TransportResult → Bool
  | .netErr => true
  | .httpErr st => st = 503 || st = 429
  | .ok _ _ => false

/-- A timer id that is not scheduled and below the allocation counter can
never be scheduled again: fresh timers always take the counter value. -/
def timerDead (s : SysState) (tid : Nat) : Prop :=
  tid ∉ s.activeTimers ∧ tid < s.nextTimerId

/-- Character-list prefix test. -/
def leadsWith : List Char → List Char → Bool
  | [], _ => true
  | _ :: _, [] => false
  | a :: as, b :: bs => a = b && leadsWith as bs

/-- Character-list substring containment. -/
def containsSub (hay needle : List Char) : Bool :=
  match hay with
  | [] => needle.isEmpty
  | _ :: t => leadsWith needle hay || containsSub t needle

/-- A plan step list references a host when some step contains the host
name as a substring. -/
def referencesHost (plan : List String) (host : String) : Bool :=
  plan.any (fun step => containsSub step.toList host.toList)

/- ===== Concrete fixtures used by witnesses and counterexamples ===== -/

/-- A manager decision with only a thought, an action and optional url,
selector and value fields set; the other optional fields absent. -/
def mkDecision (a : ActionKind) (url : Option String) (selector : Option String)
    (value : Option String) : ManagerDecision :=
  { thought := "step", action := a, tabName := none, selector := selector, text := none,
    url := url, reason := none, duration := none, query := none, value := value }

/-- A task in the THINKING phase of turn one. -/
def thinkingTask : AgentState :=
  { freshTask 1 "book a flight" with
      status := TaskStatus.THINKING,
      plan := ["go to the airline site", "search flights", "book", "confirm"],
      tabs := [("main", 7)], turn := 1 }

/-- A system state holding thinkingTask. -/
def thinkingState : SysState :=
  { initState with currentTask := some thinkingTask, nextTaskId := 2 }

/-- An ExecEnv whose verifier call throws (verifierOk false) while the
parsed verdict, never consulted on that path, would have been unsafe. -/
def envVerifierThrew : ExecEnv :=
  { verifierOk := false, verifierVerdict := { is_safe := false, reason := "bad" },
    execSuccess := true, extractedText := "", openTabId := none, clickNewTabId := none,
    presenter := none }

/-- A task mid-execution with two consecutive step failures recorded. -/
def executingTask : AgentState :=
  { freshTask 1 "book a flight" with
      status := TaskStatus.EXECUTING,
      plan := ["go to the airline site", "search flights", "book", "confirm"],
      tabs := [("main", 7)], turn := 3, currentStep := 1, stepFailureCount := 2 }

/-- A system state holding executingTask. -/
def executingState : SysState :=
  { initState with currentTask := some executingTask, nextTaskId := 2 }

/-- A task waiting on the LONG_WAIT deferred-resume timer 0. -/
def waitingTask : AgentState :=
  { freshTask 1 "render a video" with
      status := TaskStatus.WAITING,
      plan := ["start the render", "wait for it", "collect the result"],
      tabs := [("main", 7)], turn := 2, currentStep := 1, waitTimeoutId := some 0 }

/-- A system state holding waitingTask with timer 0 scheduled. -/
def waitingState : SysState :=
  { initState with
      currentTask := some waitingTask, nextTaskId := 2,
      activeTimers := [0], nextTimerId := 1 }

/-- A task in REPLANNING after repeated failures on kayak.com. -/
def replanningTask : AgentState :=
  { freshTask 1 "book a flight" with
      status := TaskStatus.REPLANNING,
      plan := ["open kayak.com"], tabs := [("main", 5)], turn := 3,
      websiteFailures := [("kayak.com", 3)] }

/-- A system state holding replanningTask. -/
def replanningState : SysState :=
  { initState with currentTask := some replanningTask, nextTaskId := 2 }

/-- The base exponential backoff delays of attempts a+1 .. a+k, the
2 to-the attempt times 1000 ms term of src/background.ts line 1920. -/
def backoffBases (a k : Nat) : List Nat :=
  (List.range k).map (fun i => 2 ^ (a + 1 + i) * 1000)

/-- A gemini oracle whose envelope parses with a text part that fails
payload parsing and has no extractable bracket substring. -/
def gemEnvPayloadFail : GeminiEnv :=
  { attempts := fun _ => TransportResult.ok "raw" (some (some "hello")),
    jsonOk := fun _ => false, repairText := some "text" }

/-- A well-formed JSON body, built from code points to keep brace
characters out of string literals. -/
def repairedBody : String := String.mk [lbrace, 'o', 'k', rbrace]

/-- A gemini oracle whose response body is not valid JSON (envelope
SyntaxError) and whose self-repair call returns the fixed body wrapped in
extra text. -/
def gemEnvEnvelopeBad : GeminiEnv :=
  { attempts := fun _ => TransportResult.ok "notjson" none,
    jsonOk := fun s => s == repairedBody,
    repairText := some (String.mk (Char.ofNat 97 :: repairedBody.toList)) }

/-- A gemini oracle every one of whose fetch attempts rejects. -/
def gemEnvTransient : GeminiEnv :=
  { attempts := fun _ => TransportResult.netErr,
    jsonOk := fun _ => true, repairText := none }

/-- The credential-ownership invariant: whenever the active task is
awaiting a credential name and the pending slot holds a value, the slot
owner is that very task.  handleActionExec sets the owner and the
AWAITING_CREDENTIAL_NAME status together, and nothing else produces that
status, so a retained stale value can never be written under a later
task. -/
def CredInv (s : SysState) : Prop :=
  ∀ t v, s.currentTask = some t → t.status = TaskStatus.AWAITING_CREDENTIAL_NAME →
    s.pendingCredentialValue = some v → s.pendingCredentialOwner = some t.id

/-- A task awaiting a credential name for the stashed value hunter2. -/
def awaitingTask : AgentState :=
  { freshTask 1 "log into the portal" with
      status := TaskStatus.AWAITING_CREDENTIAL_NAME,
      plan := ["fill the login form"], tabs := [("main", 7)], turn := 1 }

/-- A system state holding awaitingTask with the pending slot set. -/
def awaitingState : SysState :=
  { initState with
      currentTask := some awaitingTask, nextTaskId := 2,
      pendingCredentialValue := some "hunter2", pendingCredentialOwner := some 1 }

/- ===== Frame lemmas for the state primitives ===== -/

@[simp] theorem withTask_currentTask (s : SysState) (f : AgentState → AgentState) :
    (withTask s f).currentTask = s.currentTask.map f := rfl

@[simp] theorem withTask_pendingValue (s : SysState) (f : AgentState → AgentState) :
    (withTask s f).pendingCredentialValue = s.pendingCredentialValue := rfl

@[simp] theorem withTask_pendingOwner (s : SysState) (f : AgentState → AgentState) :
    (withTask s f).pendingCredentialOwner = s.pendingCredentialOwner := rfl

@[simp] theorem withTask_vault (s : SysState) (f : AgentState → AgentState) :
    (withTask s f).vaultStore = s.vaultStore := rfl

@[simp] theorem withTask_history (s : SysState) (f : AgentState → AgentState) :
    (withTask s f).historicalTasks = s.historicalTasks := rfl

@[simp] theorem withTask_completed (s : SysState) (f : AgentState → AgentState) :
    (withTask s f).completedTasks = s.completedTasks := rfl

@[simp] theorem withTask_tools (s : SysState) (f : AgentState → AgentState) :
    (withTask s f).learnedTools = s.learnedTools := rfl

@[simp] theorem withTask_requests (s : SysState) (f : AgentState → AgentState) :
    (withTask s f).plannerRequests = s.plannerRequests := rfl

@[simp] theorem withTask_timers (s : SysState) (f : AgentState → AgentState) :
    (withTask s f).activeTimers = s.activeTimers := rfl

@[simp] theorem withTask_nextTimer (s : SysState) (f : AgentState → AgentState) :
    (withTask s f).nextTimerId = s.nextTimerId := rfl

@[simp] theorem withTask_nextTask (s : SysState) (f : AgentState → AgentState) :
    (withTask s f).nextTaskId = s.nextTaskId := rfl

@[simp] theorem addToScratchpad_eq (s : SysState) (m : String) :
    addToScratchpad s m = withTask s (fun t => { t with scratchpad := t.scratchpad ++ [m] }) := rfl

@[simp] theorem updateTaskStatus_pendingValue (s : SysState) (st : TaskStatus) (r : Option String) :
    (updateTaskStatus s st r).pendingCredentialValue = s.pendingCredentialValue := by
  unfold updateTaskStatus
  repeat' split
  all_goals rfl

@[simp] theorem updateTaskStatus_pendingOwner (s : SysState) (st : TaskStatus) (r : Option String) :
    (updateTaskStatus s st r).pendingCredentialOwner = s.pendingCredentialOwner := by
  unfold updateTaskStatus
  repeat' split
  all_goals rfl

@[simp] theorem updateTaskStatus_vault (s : SysState) (st : TaskStatus) (r : Option String) :
    (updateTaskStatus s st r).vaultStore = s.vaultStore := by
  unfold updateTaskStatus
  repeat' split
  all_goals rfl

@[simp] theorem updateTaskStatus_history (s : SysState) (st : TaskStatus) (r : Option String) :
    (updateTaskStatus s st r).historicalTasks = s.historicalTasks := by
  unfold updateTaskStatus
  repeat' split
  all_goals rfl

@[simp] theorem updateTaskStatus_timers (s : SysState) (st : TaskStatus) (r : Option String) :
    (updateTaskStatus s st r).activeTimers = s.activeTimers := by
  unfold updateTaskStatus
  repeat' split
  all_goals rfl

@[simp] theorem updateTaskStatus_nextTimer (s : SysState) (st : TaskStatus) (r : Option String) :
    (updateTaskStatus s st r).nextTimerId = s.nextTimerId := by
  unfold updateTaskStatus
  repeat' split
  all_goals rfl

@[simp] theorem updateTaskStatus_requests (s : SysState) (st : TaskStatus) (r : Option String) :
    (updateTaskStatus s st r).plannerRequests = s.plannerRequests := by
  unfold updateTaskStatus
  repeat' split
  all_goals rfl

@[simp] theorem updateTaskStatus_none_currentTask (s : SysState) (st : TaskStatus) :
    (updateTaskStatus s st none).currentTask =
      s.currentTask.map (fun t => { t with status := st }) := rfl

@[simp] theorem saveHistoricalTask_currentTask (s : SysState) (g : String) :
    (saveHistoricalTask s g).currentTask = s.currentTask := by
  unfold saveHistoricalTask
  repeat' split
  all_goals rfl

@[simp] theorem saveHistoricalTask_pendingValue (s : SysState) (g : String) :
    (saveHistoricalTask s g).pendingCredentialValue = s.pendingCredentialValue := by
  unfold saveHistoricalTask
  repeat' split
  all_goals rfl

@[simp] theorem saveHistoricalTask_pendingOwner (s : SysState) (g : String) :
    (saveHistoricalTask s g).pendingCredentialOwner = s.pendingCredentialOwner := by
  unfold saveHistoricalTask
  repeat' split
  all_goals rfl

@[simp] theorem saveHistoricalTask_vault (s : SysState) (g : String) :
    (saveHistoricalTask s g).vaultStore = s.vaultStore := by
  unfold saveHistoricalTask
  repeat' split
  all_goals rfl

@[simp] theorem saveHistoricalTask_timers (s : SysState) (g : String) :
    (saveHistoricalTask s g).activeTimers = s.activeTimers := by
  unfold saveHistoricalTask
  repeat' split
  all_goals rfl

@[simp] theorem saveHistoricalTask_nextTimer (s : SysState) (g : String) :
    (saveHistoricalTask s g).nextTimerId = s.nextTimerId := by
  unfold saveHistoricalTask
  repeat' split
  all_goals rfl

@[simp] theorem saveCompletedTask_currentTask (s : SysState) :
    (saveCompletedTask s).currentTask = s.currentTask := by
  unfold saveCompletedTask
  repeat' split
  all_goals simp

@[simp] theorem saveCompletedTask_pendingValue (s : SysState) :
    (saveCompletedTask s).pendingCredentialValue = s.pendingCredentialValue := by
  unfold saveCompletedTask
  repeat' split
  all_goals simp

@[simp] theorem saveCompletedTask_pendingOwner (s : SysState) :
    (saveCompletedTask s).pendingCredentialOwner = s.pendingCredentialOwner := by
  unfold saveCompletedTask
  repeat' split
  all_goals simp

@[simp] theorem saveCompletedTask_vault (s : SysState) :
    (saveCompletedTask s).vaultStore = s.vaultStore := by
  unfold saveCompletedTask
  repeat' split
  all_goals simp

@[simp] theorem saveCompletedTask_timers (s : SysState) :
    (saveCompletedTask s).activeTimers = s.activeTimers := by
  unfold saveCompletedTask
  repeat' split
  all_goals simp

@[simp] theorem saveCompletedTask_nextTimer (s : SysState) :
    (saveCompletedTask s).nextTimerId = s.nextTimerId := by
  unfold saveCompletedTask
  repeat' split
  all_goals simp

@[simp] theorem clearWaitTimeout_pendingValue (s : SysState) :
    (clearWaitTimeout s).pendingCredentialValue = s.pendingCredentialValue := by
  unfold clearWaitTimeout
  repeat' split
  all_goals rfl

@[simp] theorem clearWaitTimeout_pendingOwner (s : SysState) :
    (clearWaitTimeout s).pendingCredentialOwner = s.pendingCredentialOwner := by
  unfold clearWaitTimeout
  repeat' split
  all_goals rfl

@[simp] theorem clearWaitTimeout_vault (s : SysState) :
    (clearWaitTimeout s).vaultStore = s.vaultStore := by
  unfold clearWaitTimeout
  repeat' split
  all_goals rfl

@[simp] theorem clearWaitTimeout_history (s : SysState) :
    (clearWaitTimeout s).historicalTasks = s.historicalTasks := by
  unfold clearWaitTimeout
  repeat' split
  all_goals rfl

@[simp] theorem clearWaitTimeout_nextTimer (s : SysState) :
    (clearWaitTimeout s).nextTimerId = s.nextTimerId := by
  unfold clearWaitTimeout
  repeat' split
  all_goals rfl

@[simp] theorem clearWaitTimeout_clock (s : SysState) :
    (clearWaitTimeout s).clock = s.clock := by
  unfold clearWaitTimeout
  repeat' split
  all_goals rfl

@[simp] theorem handleStuckState_pendingValue (s : SysState) (b : Bool) :
    (handleStuckState s b).pendingCredentialValue = s.pendingCredentialValue := by
  unfold handleStuckState
  repeat' split
  all_goals simp_all

@[simp] theorem handleStuckState_pendingOwner (s : SysState) (b : Bool) :
    (handleStuckState s b).pendingCredentialOwner = s.pendingCredentialOwner := by
  unfold handleStuckState
  repeat' split
  all_goals simp_all

@[simp] theorem handleStuckState_vault (s : SysState) (b : Bool) :
    (handleStuckState s b).vaultStore = s.vaultStore := by
  unfold handleStuckState
  repeat' split
  all_goals simp_all

@[simp] theorem handleStuckState_history (s : SysState) (b : Bool) :
    (handleStuckState s b).historicalTasks = s.historicalTasks := by
  unfold handleStuckState
  repeat' split
  all_goals simp_all

@[simp] theorem handleStuckState_timers (s : SysState) (b : Bool) :
    (handleStuckState s b).activeTimers = s.activeTimers := by
  unfold handleStuckState
  repeat' split
  all_goals simp_all

@[simp] theorem handleStuckState_nextTimer (s : SysState) (b : Bool) :
    (handleStuckState s b).nextTimerId = s.nextTimerId := by
  unfold handleStuckState
  repeat' split
  all_goals simp_all

@[simp] theorem runNextTurnObserve_timers (s : SysState) (o : TurnOracle) :
    (runNextTurnObserve s o).1.activeTimers = s.activeTimers := by
  unfold runNextTurnObserve
  repeat' split
  all_goals simp

@[simp] theorem runNextTurnObserve_nextTimer (s : SysState) (o : TurnOracle) :
    (runNextTurnObserve s o).1.nextTimerId = s.nextTimerId := by
  unfold runNextTurnObserve
  repeat' split
  all_goals simp

@[simp] theorem runNextTurnObserve_vault (s : SysState) (o : TurnOracle) :
    (runNextTurnObserve s o).1.vaultStore = s.vaultStore := by
  unfold runNextTurnObserve
  repeat' split
  all_goals simp

@[simp] theorem runNextTurnObserve_pendingValue (s : SysState) (o : TurnOracle) :
    (runNextTurnObserve s o).1.pendingCredentialValue = s.pendingCredentialValue := by
  unfold runNextTurnObserve
  repeat' split
  all_goals simp

@[simp] theorem runNextTurnObserve_pendingOwner (s : SysState) (o : TurnOracle) :
    (runNextTurnObserve s o).1.pendingCredentialOwner = s.pendingCredentialOwner := by
  unfold runNextTurnObserve
  repeat' split
  all_goals simp

/- ===== Claim theorems ===== -/

/-- A decision passing the needsVerification gate is a GOTO, OPEN_TAB or
CLICK (src/background.ts line 1060). -/
theorem needsVerification_action (d : ManagerDecision) (h : needsVerification d = true) :
    d.action = ActionKind.GOTO ∨ d.action = ActionKind.OPEN_TAB ∨ d.action = ActionKind.CLICK := by
  unfold needsVerification at h
  cases hd : d.action <;> simp [hd] at h <;> simp

/-- handleActionExec on a GOTO, OPEN_TAB or CLICK decision always leaves
the task present with status EXECUTING (every branch of the switch for
these actions keeps the EXECUTING status set at src/background.ts line
1076). -/
theorem handleActionExec_nav_status (s : SysState) (t : AgentState) (d : ManagerDecision)
    (env : ExecEnv) (ht : s.currentTask = some t)
    (hnav : d.action = ActionKind.GOTO ∨ d.action = ActionKind.OPEN_TAB ∨ d.action = ActionKind.CLICK) :
    ∃ t', (handleActionExec s d env).1.currentTask = some t' ∧
      t'.status = TaskStatus.EXECUTING := by
  unfold handleActionExec finishAction
  rcases hnav with hd | hd | hd <;>
    simp only [hd, ht, addToScratchpad_eq] <;>
    repeat' split <;>
    simp_all [withTask, updateTaskStatus]

/-- Claim C10: for every navigation-type action requiring verification,
if the Verifier call itself throws, the verdict defaults to safe
(is_safe = true, the catch branch of getVerifierDecision) and the
navigation proceeds as if verified (the task reaches the EXECUTING
phase); execution is blocked, with the decision dispatched as an action
failure, exactly when the Verifier returns an explicit unsafe verdict
(the task is then left in VERIFYING and the action is never executed). -/
theorem C10_verifier_default_safe
    (s : SysState) (t : AgentState) (d : ManagerDecision) (env : ExecEnv)
    (ht : s.currentTask = some t) (hst : t.status = TaskStatus.THINKING)
    (hver : needsVerification d = true) (hurl : d.url.isSome = true) :
    (getVerifierDecision false env.verifierVerdict).is_safe = true ∧
    ((agentOrchestrator s (.ACTION_COMPLETE (some d) env)).1.currentTask.map AgentState.status =
        some TaskStatus.VERIFYING ↔
      env.verifierOk = true ∧ env.verifierVerdict.is_safe = false) ∧
    (env.verifierOk = true ∧ env.verifierVerdict.is_safe = false →
      (agentOrchestrator s (.ACTION_COMPLETE (some d) env)).2 = [Emit.ACTION_FAILED d]) ∧
    (env.verifierOk = false →
      (agentOrchestrator s (.ACTION_COMPLETE (some d) env)).1.currentTask.map AgentState.status =
        some TaskStatus.EXECUTING) := by
  have hnav := needsVerification_action d hver
  have hdisp : agentOrchestrator s (.ACTION_COMPLETE (some d) env) = handleAction s d env := by
    simp [agentOrchestrator, ht, hst]
  rw [hdisp]
  unfold handleAction
  rw [ht]
  rw [if_pos (by simp [hver, hurl])]
  by_cases hok : env.verifierOk = true
  · by_cases hsafe : env.verifierVerdict.is_safe = true
    · -- verifier succeeded with a safe verdict: proceed
      rw [if_neg (by simp [getVerifierDecision, hok, hsafe])]
      obtain ⟨t', ht', hvt'⟩ := handleActionExec_nav_status
        (addToScratchpad
          (addToScratchpad (updateTaskStatus s TaskStatus.VERIFYING none)
            ("Verifying URL: " ++ d.url.getD ""))
          "Verification successful. Proceeding with action.")
        { t with status := TaskStatus.VERIFYING,
                 scratchpad := t.scratchpad ++
                   ["Verifying URL: " ++ d.url.getD "",
                    "Verification successful. Proceeding with action."] }
        d env (by simp [updateTaskStatus, withTask, ht]) hnav
      refine ⟨by simp [getVerifierDecision], ?_, ?_, ?_⟩
      · rw [ht']
        simp [hvt', hok, hsafe]
      · rintro ⟨-, hbad⟩
        simp [hsafe] at hbad
      · intro hbad
        simp [hbad] at hok
    · -- verifier succeeded with an unsafe verdict: blocked
      rw [Bool.not_eq_true] at hsafe
      rw [if_pos (by simp [getVerifierDecision, hok, hsafe])]
      refine ⟨by simp [getVerifierDecision], ?_, fun _ => rfl, ?_⟩
      · constructor
        · intro _
          exact ⟨hok, hsafe⟩
        · intro _
          simp [updateTaskStatus, withTask, ht]
      · intro hbad
        simp [hbad] at hok
  · -- verifier call threw: default verdict is safe, proceed
    rw [Bool.not_eq_true] at hok
    rw [if_neg (by simp [getVerifierDecision, hok])]
    obtain ⟨t', ht', hvt'⟩ := handleActionExec_nav_status
      (addToScratchpad
        (addToScratchpad (updateTaskStatus s TaskStatus.VERIFYING none)
          ("Verifying URL: " ++ d.url.getD ""))
        "Verification successful. Proceeding with action.")
      { t with status := TaskStatus.VERIFYING,
               scratchpad := t.scratchpad ++
                 ["Verifying URL: " ++ d.url.getD "",
                  "Verification successful. Proceeding with action."] }
      d env (by simp [updateTaskStatus, withTask, ht]) hnav
    refine ⟨by simp [getVerifierDecision], ?_, ?_, ?_⟩
    · rw [ht']
      simp [hvt', hok]
    · rintro ⟨hbad, -⟩
      simp [hok] at hbad
    · intro _
      rw [ht']
      simp [hvt']

/-- Witness for C10: a concrete GOTO decision whose verifier call throws
is executed as if verified. -/
theorem C10_witness :
    (getVerifierDecision false envVerifierThrew.verifierVerdict).is_safe = true ∧
    ((agentOrchestrator thinkingState
        (.ACTION_COMPLETE (some (mkDecision .GOTO (some "https://x.example") none none))
          envVerifierThrew)).1.currentTask.map AgentState.status =
        some TaskStatus.VERIFYING ↔
      envVerifierThrew.verifierOk = true ∧ envVerifierThrew.verifierVerdict.is_safe = false) ∧
    (envVerifierThrew.verifierOk = true ∧ envVerifierThrew.verifierVerdict.is_safe = false →
      (agentOrchestrator thinkingState
        (.ACTION_COMPLETE (some (mkDecision .GOTO (some "https://x.example") none none))
          envVerifierThrew)).2 =
        [Emit.ACTION_FAILED (mkDecision .GOTO (some "https://x.example") none none)]) ∧
    (envVerifierThrew.verifierOk = false →
      (agentOrchestrator thinkingState
        (.ACTION_COMPLETE (some (mkDecision .GOTO (some "https://x.example") none none))
          envVerifierThrew)).1.currentTask.map AgentState.status =
        some TaskStatus.EXECUTING) :=
  C10_verifier_default_safe thinkingState thinkingTask
    (mkDecision .GOTO (some "https://x.example") none none) envVerifierThrew
    rfl rfl (by decide) rfl

/-- handleStuckState moves the (present) task to REPLANNING. -/
@[simp] theorem handleStuckState_status_map (s : SysState) (b : Bool) :
    (handleStuckState s b).currentTask.map AgentState.status =
      s.currentTask.map (fun _ => TaskStatus.REPLANNING) := by
  unfold handleStuckState
  cases hc : s.currentTask <;> simp [hc, updateTaskStatus, withTask]

/-- handleStuckState does not change stepFailureCount. -/
@[simp] theorem handleStuckState_count_map (s : SysState) (b : Bool) :
    (handleStuckState s b).currentTask.map AgentState.stepFailureCount =
      s.currentTask.map AgentState.stepFailureCount := by
  unfold handleStuckState
  cases hc : s.currentTask <;> simp [hc, updateTaskStatus, withTask]

/-- handleStuckState does not change websiteFailures. -/
@[simp] theorem handleStuckState_failures_map (s : SysState) (b : Bool) :
    (handleStuckState s b).currentTask.map AgentState.websiteFailures =
      s.currentTask.map AgentState.websiteFailures := by
  unfold handleStuckState
  cases hc : s.currentTask <;> simp [hc, updateTaskStatus, withTask]

/-- handleStuckState does not change currentStep. -/
@[simp] theorem handleStuckState_step_map (s : SysState) (b : Bool) :
    (handleStuckState s b).currentTask.map AgentState.currentStep =
      s.currentTask.map AgentState.currentStep := by
  unfold handleStuckState
  cases hc : s.currentTask <;> simp [hc, updateTaskStatus, withTask]

/-- handleStuckState does not change plan. -/
@[simp] theorem handleStuckState_plan_map (s : SysState) (b : Bool) :
    (handleStuckState s b).currentTask.map AgentState.plan =
      s.currentTask.map AgentState.plan := by
  unfold handleStuckState
  cases hc : s.currentTask <;> simp [hc, updateTaskStatus, withTask]

/-- handleStuckState keeps the task present. -/
@[simp] theorem handleStuckState_isSome (s : SysState) (b : Bool) :
    (handleStuckState s b).currentTask.isSome = s.currentTask.isSome := by
  unfold handleStuckState
  cases hc : s.currentTask <;> simp [hc, updateTaskStatus, withTask]

/-- The replan request appended by handleStuckState carries the failing
plan, step and the full per-host failure tallies of the task
(src/background.ts lines 928-935). -/
@[simp] theorem handleStuckState_requests (s : SysState) (b : Bool) :
    (handleStuckState s b).plannerRequests = s.plannerRequests ++
      (s.currentTask.map (fun t =>
        ({ failedPlan := t.plan, failingStep := t.currentStep + 1,
           history := takeRight (t.scratchpad ++
             ["System Alert: step failed repeatedly. I must re-plan my approach."]) 10,
           isUserInitiated := b, websiteFailures := t.websiteFailures } : ReplanContext))).toList := by
  unfold handleStuckState
  cases hc : s.currentTask <;> simp [hc, updateTaskStatus, withTask]

/-- Claim C2: in the turn loop, an ACTION_FAILED event processed in
EXECUTING increments stepFailureCount (and records the host failure
tally); it moves the task into REPLANNING exactly when the incremented
count reaches 3 (so with the counter starting at 0 and reset on every
success, the third consecutive failure and not the second triggers
replanning, and a fourth is never waited for); otherwise it re-runs the
turn; and every successful step completion (ACTION_COMPLETE) resets
stepFailureCount to 0. -/
theorem C2_escalation_threshold
    (s : SysState) (t : AgentState) (d : ManagerDecision) (host : Option String)
    (pd : Option ManagerDecision) (env : ExecEnv)
    (ht : s.currentTask = some t) (hst : t.status = TaskStatus.EXECUTING) :
    ((agentOrchestrator s (.ACTION_FAILED d host)).1.currentTask.map AgentState.stepFailureCount =
        some (t.stepFailureCount + 1)) ∧
    ((agentOrchestrator s (.ACTION_FAILED d host)).1.currentTask.map AgentState.status =
        some TaskStatus.REPLANNING ↔ t.stepFailureCount + 1 ≥ 3) ∧
    (∀ h, host = some h →
      (agentOrchestrator s (.ACTION_FAILED d host)).1.currentTask.map AgentState.websiteFailures =
        some (bumpFailure t.websiteFailures h)) ∧
    ((agentOrchestrator s (.ACTION_FAILED d host)).2 =
        if t.stepFailureCount + 1 ≥ 3 then [] else [Emit.RUN_NEXT_TURN]) ∧
    ((agentOrchestrator s (.ACTION_COMPLETE pd env)).1.currentTask.map AgentState.stepFailureCount =
        some 0) := by
  have hdisp : agentOrchestrator s (.ACTION_FAILED d host) = executingActionFailed s d host := by
    simp [agentOrchestrator, ht, hst]
  have hdisp2 : agentOrchestrator s (.ACTION_COMPLETE pd env) =
      (withTask s stepAdvance, [Emit.RUN_NEXT_TURN]) := by
    simp [agentOrchestrator, ht, hst]
  rw [hdisp, hdisp2]
  unfold executingActionFailed
  by_cases hge : t.stepFailureCount + 1 ≥ 3
  · have hge2 : 2 ≤ t.stepFailureCount := by omega
    cases host <;>
      refine ⟨?_, ?_, ?_, ?_, ?_⟩ <;>
        simp [withTask, ht, stepAdvance, hst, hge2, hge]
  · have hge2 : ¬ 2 ≤ t.stepFailureCount := by omega
    cases host <;>
      refine ⟨?_, ?_, ?_, ?_, ?_⟩ <;>
        simp [withTask, ht, stepAdvance, hst, hge2, hge]

/-- Witness for C2: with two failures already recorded, a third
ACTION_FAILED in EXECUTING yields count 3 and the REPLANNING transition,
and an ACTION_COMPLETE resets the counter. -/
theorem C2_witness :
    ((agentOrchestrator executingState
        (.ACTION_FAILED (mkDecision .CLICK none (some "#btn") none) (some "kayak.com"))).1.currentTask.map
          AgentState.stepFailureCount = some (executingTask.stepFailureCount + 1)) ∧
    ((agentOrchestrator executingState
        (.ACTION_FAILED (mkDecision .CLICK none (some "#btn") none) (some "kayak.com"))).1.currentTask.map
          AgentState.status = some TaskStatus.REPLANNING ↔
      executingTask.stepFailureCount + 1 ≥ 3) ∧
    (∀ h, (some "kayak.com" : Option String) = some h →
      (agentOrchestrator executingState
        (.ACTION_FAILED (mkDecision .CLICK none (some "#btn") none) (some "kayak.com"))).1.currentTask.map
          AgentState.websiteFailures = some (bumpFailure executingTask.websiteFailures h)) ∧
    ((agentOrchestrator executingState
        (.ACTION_FAILED (mkDecision .CLICK none (some "#btn") none) (some "kayak.com"))).2 =
        if executingTask.stepFailureCount + 1 ≥ 3 then [] else [Emit.RUN_NEXT_TURN]) ∧
    ((agentOrchestrator executingState
        (.ACTION_COMPLETE none envVerifierThrew)).1.currentTask.map AgentState.stepFailureCount =
        some 0) :=
  C2_escalation_threshold executingState executingTask
    (mkDecision .CLICK none (some "#btn") none) (some "kayak.com") none envVerifierThrew
    rfl rfl

@[simp] theorem finishAction_timers (s : SysState) (d : ManagerDecision) (env : ExecEnv) (b : Bool) :
    (finishAction s d env b).1.activeTimers = s.activeTimers := by
  unfold finishAction
  repeat' split
  all_goals simp

@[simp] theorem finishAction_nextTimer (s : SysState) (d : ManagerDecision) (env : ExecEnv) (b : Bool) :
    (finishAction s d env b).1.nextTimerId = s.nextTimerId := by
  unfold finishAction
  repeat' split
  all_goals simp

theorem clearWaitTimeout_timerDead (s : SysState) (tid : Nat) (h : timerDead s tid) :
    timerDead (clearWaitTimeout s) tid := by
  obtain ⟨h1, h2⟩ := h
  unfold clearWaitTimeout
  repeat' split
  · exact ⟨h1, h2⟩
  · exact ⟨h1, h2⟩
  · exact ⟨fun hm => h1 (List.mem_filter.mp hm).1, h2⟩

/-- handleActionExec either leaves the timer set unchanged or pushes the
fresh counter value (the LONG_WAIT branch). -/
theorem handleActionExec_timers (s : SysState) (d : ManagerDecision) (env : ExecEnv) :
    ((handleActionExec s d env).1.activeTimers = s.activeTimers ∧
      (handleActionExec s d env).1.nextTimerId = s.nextTimerId) ∨
    ((handleActionExec s d env).1.activeTimers = s.nextTimerId :: s.activeTimers ∧
      (handleActionExec s d env).1.nextTimerId = s.nextTimerId + 1) := by
  unfold handleActionExec
  dsimp only
  repeat' split
  all_goals first
    | (left; constructor <;> simp; done)
    | (right; constructor <;> simp; done)

theorem handleActionExec_timerDead (s : SysState) (d : ManagerDecision) (env : ExecEnv)
    (tid : Nat) (h : timerDead s tid) : timerDead (handleActionExec s d env).1 tid := by
  obtain ⟨h1, h2⟩ := h
  rcases handleActionExec_timers s d env with ⟨ha, hn⟩ | ⟨ha, hn⟩
  · rw [timerDead, ha, hn]
    exact ⟨h1, h2⟩
  · rw [timerDead, ha, hn]
    refine ⟨?_, by omega⟩
    intro hm
    rcases List.mem_cons.mp hm with hm | hm
    · omega
    · exact h1 hm

theorem handleAction_timerDead (s : SysState) (d : ManagerDecision) (env : ExecEnv)
    (tid : Nat) (h : timerDead s tid) : timerDead (handleAction s d env).1 tid := by
  unfold handleAction
  dsimp only
  split
  · exact h
  · split
    · split
      · exact ⟨by simpa using h.1, by simpa using h.2⟩
      · exact handleActionExec_timerDead _ d env tid ⟨by simpa using h.1, by simpa using h.2⟩
    · exact handleActionExec_timerDead _ d env tid h

/-- No orchestrator event can revive a dead timer id: scheduling always
uses the fresh counter value, and every other branch leaves the timer set
alone or removes entries. -/
theorem timerDead_step (s : SysState) (e : Event) (tid : Nat) (h : timerDead s tid) :
    timerDead (agentOrchestrator s e).1 tid := by
  obtain ⟨h1, h2⟩ := h
  cases e
  case ACTION_COMPLETE payload env =>
    simp only [agentOrchestrator]
    repeat' split
    any_goals exact (⟨h1, h2⟩ : timerDead s tid)
    any_goals exact handleAction_timerDead s _ env tid ⟨h1, h2⟩
    all_goals refine ⟨?_, ?_⟩ <;> simp_all
  case STOP_TASK =>
    simp only [agentOrchestrator]
    unfold handleStopTask
    repeat' split
    any_goals exact (⟨h1, h2⟩ : timerDead s tid)
    all_goals
      have hcd := clearWaitTimeout_timerDead s tid ⟨h1, h2⟩
      refine ⟨?_, ?_⟩ <;> simp_all [timerDead]
  case RESET_TASK_SESSION =>
    simp only [agentOrchestrator]
    unfold handleResetTaskSession
    repeat' split
    any_goals exact (⟨h1, h2⟩ : timerDead s tid)
    all_goals
      have hcd := clearWaitTimeout_timerDead s tid ⟨h1, h2⟩
      refine ⟨?_, ?_⟩ <;> simp_all [timerDead]
  case TIMER_FIRED tid2 =>
    simp only [agentOrchestrator]
    unfold timerFired
    rcases hc : s.currentTask with _ | t
    all_goals (simp only [hc]; repeat' split)
    any_goals exact (⟨h1, h2⟩ : timerDead s tid)
    all_goals (refine ⟨?_, ?_⟩ <;> simp_all [List.mem_filter])
  all_goals
    ((try simp only [agentOrchestrator]);
     (try simp only [handleStartTask, handleTakeOver, handleGoAutonomous, handleRecordedAction,
        handleStartTeaching, handleStopTeaching, teachingSummaryResolved, handleUnlockVault,
        handleDeleteHistoricalTask, handleSaveCredential, deliberatePersonas,
        deliberateConsensus, deliberateErrored, runNextTurn, researchComplete,
        executingActionFailed]);
     (repeat' split);
     (any_goals exact (⟨h1, h2⟩ : timerDead s tid));
     (all_goals refine ⟨?_, ?_⟩ <;> simp_all [List.mem_filter]))

/-- A dead timer id stays dead over any further event sequence. -/
theorem timerDead_run (sx : SysState) (tid : Nat) (h : timerDead sx tid) (es : List Event) :
    timerDead (runEvents sx es) tid := by
  induction es generalizing sx with
  | nil => exact h
  | cons e es ih => exact ih _ (timerDead_step sx e tid h)

/-- A TIMER_FIRED event for a timer that is not scheduled (cleared, never
scheduled, or already fired) is a complete no-op: the cleared setTimeout
callback never runs. -/
theorem timerFired_dead (sx : SysState) (tid : Nat) (h : tid ∉ sx.activeTimers) :
    agentOrchestrator sx (.TIMER_FIRED tid) = (sx, []) := by
  simp only [agentOrchestrator]
  unfold timerFired
  rw [if_neg (by simpa using h)]

/-- Claim C8: a LONG_WAIT action processed from THINKING puts the task in
WAITING, schedules a fresh deferred-resume timer recorded in
waitTimeoutId, and returns immediately with no continuation event; a
TIMER_FIRED for a scheduled timer while the task is still WAITING behaves
exactly like a successful step completion (failure counter reset, failed
action cleared, currentStep advanced up to the cap, waitTimeoutId
cleared, turn loop resumed); STOP_TASK cancels the pending timer, after
which the cancelled timer is dead forever (no event revives it) and its
TIMER_FIRED is a complete no-op, so no resume is ever processed. -/
theorem C8_long_wait_schedule_cancel
    (s : SysState) (t : AgentState) (d : ManagerDecision) (env : ExecEnv)
    (ht : s.currentTask = some t) (hst : t.status = TaskStatus.THINKING)
    (hd : d.action = ActionKind.LONG_WAIT) :
    ((agentOrchestrator s (.ACTION_COMPLETE (some d) env)).2 = [] ∧
     (agentOrchestrator s (.ACTION_COMPLETE (some d) env)).1.currentTask.map AgentState.status =
       some TaskStatus.WAITING ∧
     (agentOrchestrator s (.ACTION_COMPLETE (some d) env)).1.currentTask.map AgentState.waitTimeoutId =
       some (some s.nextTimerId) ∧
     s.nextTimerId ∈ (agentOrchestrator s (.ACTION_COMPLETE (some d) env)).1.activeTimers ∧
     (agentOrchestrator s (.ACTION_COMPLETE (some d) env)).1.nextTimerId = s.nextTimerId + 1) ∧
    (∀ (s' : SysState) (t' : AgentState) (tid : Nat),
      s'.currentTask = some t' → t'.status = TaskStatus.WAITING → tid ∈ s'.activeTimers →
      (agentOrchestrator s' (.TIMER_FIRED tid)).2 = [Emit.RUN_NEXT_TURN] ∧
      (agentOrchestrator s' (.TIMER_FIRED tid)).1.currentTask.map AgentState.stepFailureCount =
        some 0 ∧
      (agentOrchestrator s' (.TIMER_FIRED tid)).1.currentTask.map AgentState.lastFailedAction =
        some none ∧
      (agentOrchestrator s' (.TIMER_FIRED tid)).1.currentTask.map AgentState.currentStep =
        some (if t'.currentStep < t'.plan.length - 1 then t'.currentStep + 1 else t'.currentStep) ∧
      (agentOrchestrator s' (.TIMER_FIRED tid)).1.currentTask.map AgentState.waitTimeoutId =
        some none ∧
      tid ∉ (agentOrchestrator s' (.TIMER_FIRED tid)).1.activeTimers) ∧
    (∀ (s2 : SysState) (t2 : AgentState) (tid : Nat),
      s2.currentTask = some t2 → t2.waitTimeoutId = some tid → tid < s2.nextTimerId →
      (agentOrchestrator s2 .STOP_TASK).1.currentTask = none ∧
      timerDead (agentOrchestrator s2 .STOP_TASK).1 tid) ∧
    (∀ (sx : SysState) (tid : Nat), tid ∉ sx.activeTimers →
      agentOrchestrator sx (.TIMER_FIRED tid) = (sx, [])) ∧
    (∀ (sx : SysState) (tid : Nat) (es : List Event),
      timerDead sx tid → timerDead (runEvents sx es) tid) := by
  refine ⟨?_, ?_, ?_, fun sx tid h => timerFired_dead sx tid h,
    fun sx tid es h => timerDead_run sx tid h es⟩
  · have hdisp : agentOrchestrator s (.ACTION_COMPLETE (some d) env) = handleAction s d env := by
      simp [agentOrchestrator, ht, hst]
    rw [hdisp]
    unfold handleAction
    rw [ht, if_neg (by simp [needsVerification, hd])]
    unfold handleActionExec
    rw [ht]
    by_cases hth : d.thought = "" <;>
      simp [hd, hth, withTask, updateTaskStatus, ht]
  · intro s' t' tid ht' hst' htid
    simp only [agentOrchestrator]
    unfold timerFired
    rw [if_pos (by simpa using htid), ht']
    simp only [hst', if_pos rfl]
    refine ⟨by simp, ?_, ?_, ?_, ?_, ?_⟩ <;>
      simp [withTask, ht', stepAdvance, List.mem_filter]
  · intro s2 t2 tid ht2 hw2 hlt
    have hcd : timerDead (clearWaitTimeout s2) tid := by
      unfold clearWaitTimeout
      simp only [ht2, hw2]
      exact ⟨fun hm => by simp [List.mem_filter] at hm, by simpa using hlt⟩
    obtain ⟨hcd1, hcd2⟩ := hcd
    simp only [agentOrchestrator]
    unfold handleStopTask
    simp only [ht2]
    refine ⟨by first | trivial | (split <;> rfl), ?_, ?_⟩ <;> split <;> simp_all

/-- Witness for C8: a concrete LONG_WAIT decision schedules timer 0 and
returns immediately, and a concrete TIMER_FIRED on a WAITING task acts as
a successful step completion. -/
theorem C8_witness :
    ((agentOrchestrator thinkingState
        (.ACTION_COMPLETE (some (mkDecision .LONG_WAIT none none none)) envVerifierThrew)).2 = [] ∧
     (agentOrchestrator thinkingState
        (.ACTION_COMPLETE (some (mkDecision .LONG_WAIT none none none))
          envVerifierThrew)).1.currentTask.map AgentState.status = some TaskStatus.WAITING ∧
     (agentOrchestrator thinkingState
        (.ACTION_COMPLETE (some (mkDecision .LONG_WAIT none none none))
          envVerifierThrew)).1.currentTask.map AgentState.waitTimeoutId =
       some (some thinkingState.nextTimerId) ∧
     thinkingState.nextTimerId ∈ (agentOrchestrator thinkingState
        (.ACTION_COMPLETE (some (mkDecision .LONG_WAIT none none none))
          envVerifierThrew)).1.activeTimers ∧
     (agentOrchestrator thinkingState
        (.ACTION_COMPLETE (some (mkDecision .LONG_WAIT none none none))
          envVerifierThrew)).1.nextTimerId = thinkingState.nextTimerId + 1) ∧
    ((agentOrchestrator waitingState (.TIMER_FIRED 0)).2 = [Emit.RUN_NEXT_TURN] ∧
     (agentOrchestrator waitingState (.TIMER_FIRED 0)).1.currentTask.map
        AgentState.stepFailureCount = some 0 ∧
     (agentOrchestrator waitingState (.TIMER_FIRED 0)).1.currentTask.map
        AgentState.lastFailedAction = some none ∧
     (agentOrchestrator waitingState (.TIMER_FIRED 0)).1.currentTask.map
        AgentState.currentStep =
       some (if waitingTask.currentStep < waitingTask.plan.length - 1 then
          waitingTask.currentStep + 1 else waitingTask.currentStep) ∧
     (agentOrchestrator waitingState (.TIMER_FIRED 0)).1.currentTask.map
        AgentState.waitTimeoutId = some none ∧
     0 ∉ (agentOrchestrator waitingState (.TIMER_FIRED 0)).1.activeTimers) :=
  ⟨(C8_long_wait_schedule_cancel thinkingState thinkingTask
      (mkDecision .LONG_WAIT none none none) envVerifierThrew rfl rfl rfl).1,
   (C8_long_wait_schedule_cancel thinkingState thinkingTask
      (mkDecision .LONG_WAIT none none none) envVerifierThrew rfl rfl rfl).2.1
     waitingState waitingTask 0 rfl rfl (by decide)⟩

/-- Claim C4 (amended): the teacher-summarization continuation applies its
result only when the task it started with is still the active task (it
aborts both when the task is absent and when the active task differs);
the deliberate-flow continuations guard only against an absent task, so
they protect a cleared task but not a replaced one. -/
theorem C4_amended_stale_guards :
    (∀ (s : SysState) (origId : Nat) (summary : Option String) (toolHost : Option String),
      s.currentTask = none →
        agentOrchestrator s (.TEACHING_SUMMARY_RESOLVED origId summary toolHost) = (s, [])) ∧
    (∀ (s : SysState) (t : AgentState) (origId : Nat) (summary : Option String)
        (toolHost : Option String),
      s.currentTask = some t → t.id ≠ origId →
        agentOrchestrator s (.TEACHING_SUMMARY_RESOLVED origId summary toolHost) = (s, [])) ∧
    (∀ (s : SysState) (html : String) (plan : List String),
      s.currentTask = none → agentOrchestrator s (.DELIBERATE_CONSENSUS html plan) = (s, [])) ∧
    (∀ (s : SysState) (names : List String),
      s.currentTask = none → agentOrchestrator s (.DELIBERATE_PERSONAS names) = (s, [])) ∧
    (∀ (s : SysState) (msg : String),
      s.currentTask = none → agentOrchestrator s (.DELIBERATE_ERRORED msg) = (s, [])) := by
  refine ⟨?_, ?_, ?_, ?_, ?_⟩
  · intro s origId summary toolHost hn
    simp [agentOrchestrator, teachingSummaryResolved, hn]
  · intro s t origId summary toolHost ht hne
    simp [agentOrchestrator, teachingSummaryResolved, ht, hne]
  · intro s html plan hn
    simp [agentOrchestrator, deliberateConsensus, hn]
  · intro s names hn
    simp [agentOrchestrator, deliberatePersonas, hn]
  · intro s msg hn
    simp [agentOrchestrator, deliberateErrored, hn]

/-- Witness for C4: a stale teacher summary for a vanished task id is
dropped, and a deliberate-flow consensus after the task was cleared is
dropped. -/
theorem C4_witness :
    agentOrchestrator thinkingState
      (.TEACHING_SUMMARY_RESOLVED 99 (some "a summary") (some "x.example")) =
      (thinkingState, []) ∧
    agentOrchestrator initState (.DELIBERATE_CONSENSUS "<html>plan</html>" ["step"]) =
      (initState, []) :=
  ⟨C4_amended_stale_guards.2.1 thinkingState thinkingTask 99 (some "a summary")
      (some "x.example") rfl (by decide),
   C4_amended_stale_guards.2.2.1 initState "<html>plan</html>" ["step"] rfl⟩

/-- Counterexample for C4 as stated: the deliberate flow started by the
first task (goal "draft a market entry strategy") resolves its consensus
call after a second task ("check the weather") has replaced it.  The
continuation checks only that some task is active (src/background.ts
lines 787-801), so the stale consensus completes the second task and
overwrites its plan and finalAnswer -- refuting "a stale result never
mutates a task that was replaced by a new task". -/
theorem C4_counterexample :
    ((runEvents initState [.START_TASK "draft a market entry strategy",
        .START_TASK "check the weather"]).currentTask.map AgentState.originalGoal =
      some "check the weather") ∧
    ((runEvents initState [.START_TASK "draft a market entry strategy",
        .START_TASK "check the weather",
        .DELIBERATE_CONSENSUS "<html>strategy for task one</html>"
          ["step from the first task"]]).currentTask.map AgentState.originalGoal =
      some "check the weather") ∧
    ((runEvents initState [.START_TASK "draft a market entry strategy",
        .START_TASK "check the weather",
        .DELIBERATE_CONSENSUS "<html>strategy for task one</html>"
          ["step from the first task"]]).currentTask.map AgentState.status =
      some TaskStatus.COMPLETED) ∧
    ((runEvents initState [.START_TASK "draft a market entry strategy",
        .START_TASK "check the weather",
        .DELIBERATE_CONSENSUS "<html>strategy for task one</html>"
          ["step from the first task"]]).currentTask.map AgentState.plan =
      some ["step from the first task"]) := by
  refine ⟨?_, ?_, ?_, ?_⟩ <;> decide

/-- Delivering a concatenation of event lists composes. -/
theorem runEvents_append (s : SysState) (es1 es2 : List Event) :
    runEvents s (es1 ++ es2) = runEvents (runEvents s es1) es2 := by
  simp [runEvents, List.foldl_append]

/-- Claim C5 (amended): every START_TASK replaces the current task with a
single freshly created task in RESEARCHING carrying the new goal; the
prior task's goal is archived to history exactly when the prior task was
in USER_INPUT_PENDING (awaiting user input) -- a prior task in any other
non-terminal state is discarded without archiving. -/
theorem C5_single_task_archive :
    (∀ (s0 : SysState) (gs : List String) (g : String),
      ((runEvents s0 ((gs ++ [g]).map Event.START_TASK)).currentTask.map
          AgentState.originalGoal = some g) ∧
      ((runEvents s0 ((gs ++ [g]).map Event.START_TASK)).currentTask.map
          AgentState.status = some TaskStatus.RESEARCHING)) ∧
    (∀ (s : SysState) (t : AgentState) (g : String), s.currentTask = some t →
      (agentOrchestrator s (.START_TASK g)).1.historicalTasks =
        (if t.status = TaskStatus.USER_INPUT_PENDING then
          (saveHistoricalTask s t.originalGoal).historicalTasks else s.historicalTasks)) ∧
    (∀ (s : SysState) (t : AgentState) (g : String), s.currentTask = some t →
      t.status = TaskStatus.USER_INPUT_PENDING → isBlank t.originalGoal = false →
      ∃ h ∈ (agentOrchestrator s (.START_TASK g)).1.historicalTasks,
        h.goal = t.originalGoal) := by
  refine ⟨?_, ?_, ?_⟩
  · intro s0 gs g
    rw [List.map_append, runEvents_append]
    simp only [List.map_cons, List.map_nil, runEvents, List.foldl_cons, List.foldl_nil]
    constructor <;>
      · simp only [agentOrchestrator]
        unfold handleStartTask
        repeat' split
        all_goals simp [freshTask]
  · intro s t g ht
    simp only [agentOrchestrator]
    unfold handleStartTask
    simp only [ht]
    split <;> simp
  · intro s t g ht hui hnb
    have harch : (agentOrchestrator s (.START_TASK g)).1.historicalTasks =
        (saveHistoricalTask s t.originalGoal).historicalTasks := by
      simp only [agentOrchestrator]
      unfold handleStartTask
      simp [ht, hui]
    rw [harch]
    unfold saveHistoricalTask
    rw [if_neg (by simp [hnb])]
    split
    · rename_i hdup
      obtain ⟨h, hmem, heq⟩ := List.any_eq_true.mp hdup
      exact ⟨h, hmem, by simpa using heq⟩
    · refine ⟨{ goal := t.originalGoal, timestamp := s.clock }, ?_, rfl⟩
      rw [List.take_succ_cons]
      exact List.mem_cons_self _ _

/-- Witness for C5: one concrete START_TASK sequence yields exactly the
last goal as the single active RESEARCHING task, and a prior task that
was awaiting user input has its goal archived. -/
theorem C5_witness :
    ((runEvents initState (List.map Event.START_TASK
        (["find alpha", "find beta"] ++ ["find gamma"]))).currentTask.map
        AgentState.originalGoal = some "find gamma") ∧
    ∃ h ∈ (agentOrchestrator { initState with
        currentTask := some { (freshTask 1 "buy socks") with
          status := TaskStatus.USER_INPUT_PENDING } } (.START_TASK "new goal")).1.historicalTasks,
      h.goal = "buy socks" :=
  ⟨(C5_single_task_archive.1 initState ["find alpha", "find beta"] "find gamma").1,
   C5_single_task_archive.2.2 _ ({ (freshTask 1 "buy socks") with
      status := TaskStatus.USER_INPUT_PENDING }) "new goal" rfl rfl (by decide)⟩

/-- Counterexample for C5 as stated: after START_TASK "find alpha" the
task is in RESEARCHING, a non-terminal state that is not
USER_INPUT_PENDING; a second START_TASK replaces it, yet history stays
empty -- refuting "whenever the prior task was non-terminal, its goal is
archived to history before the replacement" (src/background.ts lines
813-816 archive only the USER_INPUT_PENDING case). -/
theorem C5_counterexample :
    ((runEvents initState [.START_TASK "find alpha"]).currentTask.map AgentState.status =
      some TaskStatus.RESEARCHING) ∧
    ((runEvents initState [.START_TASK "find alpha", .START_TASK "find beta"]).currentTask.map
        AgentState.originalGoal = some "find beta") ∧
    (runEvents initState [.START_TASK "find alpha", .START_TASK "find beta"]).historicalTasks
      = [] := by
  refine ⟨?_, ?_, ?_⟩ <;> decide

/-- Claim C6 (amended): STOP_TASK and RESET_TASK_SESSION both cancel any
pending deferred timer and discard the task, and RESET_TASK_SESSION on an
absent task is a no-op (so repeated resets never raise); but only
STOP_TASK archives the goal (and only when the task was in
USER_INPUT_PENDING, broadcasting the terminal stopped status on the way
out); RESET_TASK_SESSION never archives. -/
theorem C6_stop_reset (s : SysState) (t : AgentState) (ht : s.currentTask = some t) :
    ((agentOrchestrator s .STOP_TASK).1.currentTask = none) ∧
    (∀ tid, t.waitTimeoutId = some tid →
      tid ∉ (agentOrchestrator s .STOP_TASK).1.activeTimers) ∧
    ((agentOrchestrator s .STOP_TASK).1.historicalTasks =
      if t.status = TaskStatus.USER_INPUT_PENDING then
        (saveHistoricalTask s t.originalGoal).historicalTasks else s.historicalTasks) ∧
    ((agentOrchestrator s .RESET_TASK_SESSION).1.currentTask = none) ∧
    (∀ tid, t.waitTimeoutId = some tid →
      tid ∉ (agentOrchestrator s .RESET_TASK_SESSION).1.activeTimers) ∧
    ((agentOrchestrator s .RESET_TASK_SESSION).1.historicalTasks = s.historicalTasks) ∧
    (∀ s2 : SysState, s2.currentTask = none →
      agentOrchestrator s2 .RESET_TASK_SESSION = (s2, [])) ∧
    (agentOrchestrator (agentOrchestrator s .RESET_TASK_SESSION).1 .RESET_TASK_SESSION =
      ((agentOrchestrator s .RESET_TASK_SESSION).1, [])) := by
  have hnoop : ∀ s2 : SysState, s2.currentTask = none →
      agentOrchestrator s2 .RESET_TASK_SESSION = (s2, []) := by
    intro s2 h2
    simp [agentOrchestrator, handleResetTaskSession, h2]
  have hreset : (agentOrchestrator s .RESET_TASK_SESSION).1.currentTask = none := by
    simp only [agentOrchestrator]
    unfold handleResetTaskSession
    simp only [ht]
    all_goals rfl
  refine ⟨?_, ?_, ?_, hreset, ?_, ?_, hnoop, hnoop _ hreset⟩
  · simp only [agentOrchestrator]
    unfold handleStopTask
    simp only [ht]
    all_goals (split <;> rfl)
  · intro tid hw
    simp only [agentOrchestrator]
    unfold handleStopTask
    simp only [ht]
    have hclear : tid ∉ (clearWaitTimeout s).activeTimers := by
      unfold clearWaitTimeout
      simp only [ht, hw]
      intro hm
      simp [List.mem_filter] at hm
    split <;> simp_all
  · have hsv : (saveHistoricalTask (clearWaitTimeout s) t.originalGoal).historicalTasks =
        (saveHistoricalTask s t.originalGoal).historicalTasks := by
      unfold saveHistoricalTask
      rw [clearWaitTimeout_history, clearWaitTimeout_clock]
      split <;> (try split) <;> simp
    simp only [agentOrchestrator]
    unfold handleStopTask
    simp only [ht]
    split <;> simp_all
  · intro tid hw
    simp only [agentOrchestrator]
    unfold handleResetTaskSession
    simp only [ht]
    unfold clearWaitTimeout
    simp only [ht, hw]
    intro hm
    simp [List.mem_filter] at hm
  · simp only [agentOrchestrator]
    unfold handleResetTaskSession
    simp only [ht]
    simp

/-- Witness for C6: stopping and resetting a concrete waiting task both
cancel timer 0 and discard the task; resetting twice is safe. -/
theorem C6_witness :
    ((agentOrchestrator waitingState .STOP_TASK).1.currentTask = none) ∧
    (∀ tid, waitingTask.waitTimeoutId = some tid →
      tid ∉ (agentOrchestrator waitingState .STOP_TASK).1.activeTimers) ∧
    ((agentOrchestrator waitingState .RESET_TASK_SESSION).1.currentTask = none) ∧
    ((agentOrchestrator waitingState .RESET_TASK_SESSION).1.historicalTasks =
      waitingState.historicalTasks) ∧
    (agentOrchestrator (agentOrchestrator waitingState .RESET_TASK_SESSION).1
        .RESET_TASK_SESSION =
      ((agentOrchestrator waitingState .RESET_TASK_SESSION).1, [])) := by
  have h := C6_stop_reset waitingState waitingTask rfl
  exact ⟨h.1, h.2.1, h.2.2.2.1, h.2.2.2.2.2.1, h.2.2.2.2.2.2.2⟩

/-- Counterexample for C6 as stated: a task taken over by the user is in
USER_INPUT_PENDING; RESET_TASK_SESSION discards it without archiving the
goal (history stays empty), refuting the claim that both handlers archive
the goal of a task awaiting user input (src/background.ts lines 880-891
never call saveHistoricalTask). -/
theorem C6_counterexample :
    ((runEvents initState [.START_TASK "find tickets", .TAKE_OVER]).currentTask.map
        AgentState.status = some TaskStatus.USER_INPUT_PENDING) ∧
    ((runEvents initState [.START_TASK "find tickets", .TAKE_OVER,
        .RESET_TASK_SESSION]).currentTask = none) ∧
    (runEvents initState [.START_TASK "find tickets", .TAKE_OVER,
        .RESET_TASK_SESSION]).historicalTasks = [] := by
  refine ⟨?_, ?_, ?_⟩ <;> decide

/-- Claim C9 (amended): the three-strikes mechanism is advisory, not an
enforced exclusion.  When the third consecutive failure on a step
escalates to replanning, the replan request handed to the Planner carries
the per-host failure tallies verbatim (including a tally that has reached
3); and whatever plan the Planner returns, REPLAN_COMPLETE installs it
verbatim — with currentStep and stepFailureCount reset and the tallies
preserved — with no check that its steps avoid a host whose tally reached
3.  Host exclusion lives only in the Planner prompt text. -/
theorem C9_three_strikes_advisory
    (s : SysState) (t : AgentState) (d : ManagerDecision) (h : String)
    (ht : s.currentTask = some t) (hst : t.status = TaskStatus.EXECUTING)
    (hc : t.stepFailureCount = 2)
    (s2 : SysState) (t2 : AgentState) (plan : List String) (th : String)
    (ht2 : s2.currentTask = some t2) (hst2 : t2.status = TaskStatus.REPLANNING) :
    (∃ hist,
      (agentOrchestrator s (.ACTION_FAILED d (some h))).1.plannerRequests =
        s.plannerRequests ++
          [{ failedPlan := t.plan, failingStep := t.currentStep + 1, history := hist,
             isUserInitiated := false,
             websiteFailures := bumpFailure t.websiteFailures h }]) ∧
    ((agentOrchestrator s2 (.REPLAN_COMPLETE plan th)).1.currentTask.map AgentState.plan =
        some plan) ∧
    ((agentOrchestrator s2 (.REPLAN_COMPLETE plan th)).1.currentTask.map AgentState.currentStep =
        some 0) ∧
    ((agentOrchestrator s2 (.REPLAN_COMPLETE plan th)).1.currentTask.map AgentState.stepFailureCount =
        some 0) ∧
    ((agentOrchestrator s2 (.REPLAN_COMPLETE plan th)).1.currentTask.map AgentState.websiteFailures =
        some t2.websiteFailures) := by
  have hdisp : agentOrchestrator s (.ACTION_FAILED d (some h)) =
      executingActionFailed s d (some h) := by
    simp [agentOrchestrator, ht, hst]
  have hdisp2 : agentOrchestrator s2 (.REPLAN_COMPLETE plan th) =
      (addToScratchpad (withTask s2 (fun u =>
        { u with plan := plan, currentStep := 0, stepFailureCount := 0, lastFailedAction := none }))
        ("Replanning successful. New Plan: " ++ th), [Emit.RUN_NEXT_TURN]) := by
    simp [agentOrchestrator, ht2, hst2]
  refine ⟨?_, ?_, ?_, ?_, ?_⟩
  · refine ⟨takeRight (t.scratchpad ++
      ["System Alert: Incrementing failure count for " ++ h ++ ".",
       "System Alert: The agent has failed 3 times on this step. The current page may be problematic. Triggering a replan.",
       "System Alert: step failed repeatedly. I must re-plan my approach."]) 10, ?_⟩
    rw [hdisp]
    unfold executingActionFailed
    simp [addToScratchpad, withTask, ht, hc]
  all_goals rw [hdisp2]
  all_goals simp [addToScratchpad, withTask, ht2]

/-- Witness for C9: a third EXECUTING failure on kayak.com hands the
Planner a request with the updated tallies, and a REPLANNING task accepts
a returned plan that still targets kayak.com verbatim. -/
theorem C9_witness :
    (∃ hist,
      (agentOrchestrator executingState
        (.ACTION_FAILED (mkDecision .CLICK none (some "#btn") none) (some "kayak.com"))).1.plannerRequests =
        executingState.plannerRequests ++
          [{ failedPlan := executingTask.plan, failingStep := executingTask.currentStep + 1,
             history := hist, isUserInitiated := false,
             websiteFailures := bumpFailure executingTask.websiteFailures "kayak.com" }]) ∧
    ((agentOrchestrator replanningState
        (.REPLAN_COMPLETE ["Retry the search on kayak.com"] "again")).1.currentTask.map
          AgentState.plan = some ["Retry the search on kayak.com"]) ∧
    ((agentOrchestrator replanningState
        (.REPLAN_COMPLETE ["Retry the search on kayak.com"] "again")).1.currentTask.map
          AgentState.currentStep = some 0) ∧
    ((agentOrchestrator replanningState
        (.REPLAN_COMPLETE ["Retry the search on kayak.com"] "again")).1.currentTask.map
          AgentState.stepFailureCount = some 0) ∧
    ((agentOrchestrator replanningState
        (.REPLAN_COMPLETE ["Retry the search on kayak.com"] "again")).1.currentTask.map
          AgentState.websiteFailures = some replanningTask.websiteFailures) :=
  C9_three_strikes_advisory executingState executingTask
    (mkDecision .CLICK none (some "#btn") none) "kayak.com" rfl rfl rfl
    replanningState replanningTask ["Retry the search on kayak.com"] "again" rfl rfl

/-- Counterexample to C9 as stated: a concrete run in which kayak.com
accumulates three failures (three observation timeouts, each escalating
to replanning), after which the Planner returns a plan whose step still
references kayak.com and REPLAN_COMPLETE installs it unchanged.  So a
tally of 3 does not prevent subsequent plans from referencing the host. -/
theorem C9_counterexample :
    ((runEvents initState
        [Event.START_TASK "book a flight",
         Event.ATTEMPT_STRATEGY ["open kayak.com"],
         Event.RUN_NEXT_TURN
           { startTab := some 5, observe := ObserveOutcome.timedOut (some "kayak.com"),
             manager := ManagerOutcome.noDecision, presenterEmpty := none, presenterLimit := none },
         Event.RUN_NEXT_TURN
           { startTab := some 5, observe := ObserveOutcome.timedOut (some "kayak.com"),
             manager := ManagerOutcome.noDecision, presenterEmpty := none, presenterLimit := none },
         Event.RUN_NEXT_TURN
           { startTab := some 5, observe := ObserveOutcome.timedOut (some "kayak.com"),
             manager := ManagerOutcome.noDecision, presenterEmpty := none, presenterLimit := none },
         Event.REPLAN_COMPLETE ["Retry the search on kayak.com"] "again"]).currentTask.map
        (fun t => (t.websiteFailures.lookup "kayak.com", t.plan)) =
      some (some 3, ["Retry the search on kayak.com"])) ∧
    referencesHost ["Retry the search on kayak.com"] "kayak.com" = true := by
  decide

/-- One transient attempt below the cap: the loop sleeps the base
exponential delay and retries. -/
theorem transportGo_transient_step (env : GeminiEnv) (fuel a : Nat) (ds : List Nat)
    (hf : 0 < fuel)
    (h : isTransient (env.attempts (a + 1)) = true) (hcap : a + 1 < 5) :
    transportGo env fuel a ds =
      transportGo env (fuel - 1) (a + 1) (ds ++ [2 ^ (a + 1) * 1000]) := by
  obtain ⟨f, rfl⟩ : ∃ f, fuel = f + 1 := ⟨fuel - 1, by omega⟩
  simp only [transportGo, Nat.add_sub_cancel]
  rcases hr : env.attempts (a + 1) with ⟨raw, envb⟩ | st | -
  · rw [hr] at h
    simp [isTransient] at h
  · rw [hr] at h
    simp only [isTransient] at h
    have hst : st = 503 ∨ st = 429 := by
      rcases Bool.or_eq_true_iff.mp h with h1 | h1
      · exact Or.inl (by simpa using h1)
      · exact Or.inr (by simpa using h1)
    dsimp only
    rw [if_pos hst, if_neg (by omega)]
  · dsimp only
    rw [if_neg (by omega)]

/-- One transient attempt at the cap: the loop gives up. -/
theorem transportGo_transient_cap (env : GeminiEnv) (fuel a : Nat) (ds : List Nat)
    (hf : 0 < fuel)
    (h : isTransient (env.attempts (a + 1)) = true) (hcap : 5 ≤ a + 1) :
    transportGo env fuel a ds = TransportPhase.noSuccess (a + 1) ds := by
  obtain ⟨f, rfl⟩ : ∃ f, fuel = f + 1 := ⟨fuel - 1, by omega⟩
  simp only [transportGo]
  rcases hr : env.attempts (a + 1) with ⟨raw, envb⟩ | st | -
  · rw [hr] at h
    simp [isTransient] at h
  · rw [hr] at h
    simp only [isTransient] at h
    have hst : st = 503 ∨ st = 429 := by
      rcases Bool.or_eq_true_iff.mp h with h1 | h1
      · exact Or.inl (by simpa using h1)
      · exact Or.inr (by simpa using h1)
    dsimp only
    rw [if_pos hst, if_pos (by omega)]
  · dsimp only
    rw [if_pos (by omega)]

/-- A successful fetch ends the loop with the body and no further
delays. -/
theorem transportGo_ok_step (env : GeminiEnv) (fuel a : Nat) (ds : List Nat)
    (raw : String) (envb : Option (Option String))
    (hf : 0 < fuel) (h : env.attempts (a + 1) = TransportResult.ok raw envb) :
    transportGo env fuel a ds = TransportPhase.gotBody raw envb (a + 1) ds := by
  obtain ⟨f, rfl⟩ : ∃ f, fuel = f + 1 := ⟨fuel - 1, by omega⟩
  simp only [transportGo, h]

/-- Unfolding one step of the backoff delay list. -/
theorem backoffBases_succ (a k : Nat) :
    backoffBases a (k + 1) = 2 ^ (a + 1) * 1000 :: backoffBases (a + 1) k := by
  unfold backoffBases
  rw [List.range_succ_eq_map]
  simp only [List.map_cons, List.map_map, Nat.add_zero]
  congr 1
  apply List.map_congr_left
  intro i _
  simp only [Function.comp]
  congr 2
  omega

/-- The retry loop after k transient attempts followed by a success:
k + 1 fetches and the exponential base delays between them. -/
theorem transportGo_runs (env : GeminiEnv) (k : Nat) :
    ∀ (a fuel : Nat) (ds : List Nat) (raw : String) (envb : Option (Option String)),
      k + 1 ≤ fuel → a + k + 1 ≤ 5 →
      (∀ i, a + 1 ≤ i → i ≤ a + k → isTransient (env.attempts i) = true) →
      env.attempts (a + k + 1) = TransportResult.ok raw envb →
      transportGo env fuel a ds =
        TransportPhase.gotBody raw envb (a + k + 1) (ds ++ backoffBases a k) := by
  induction k with
  | zero =>
      intro a fuel ds raw envb hf hcap htr hok
      rw [transportGo_ok_step env fuel a ds raw envb (by omega) (by simpa using hok)]
      simp [backoffBases]
  | succ k ih =>
      intro a fuel ds raw envb hf hcap htr hok
      rw [transportGo_transient_step env fuel a ds (by omega)
            (htr (a + 1) (by omega) (by omega)) (by omega)]
      have hok2 : env.attempts (a + 1 + k + 1) = TransportResult.ok raw envb := by
        have he : a + 1 + k + 1 = a + (k + 1) + 1 := by omega
        rw [he]
        exact hok
      rw [ih (a + 1) (fuel - 1) (ds ++ [2 ^ (a + 1) * 1000]) raw envb (by omega) (by omega)
            (fun i h1 h2 => htr i (by omega) (by omega)) hok2]
      rw [backoffBases_succ]
      have he2 : a + 1 + k + 1 = a + (k + 1) + 1 := by omega
      rw [he2]
      simp

/-- The retry loop when every attempt up to the cap is transient: five
fetches, four backoff sleeps, then the error is raised. -/
theorem transportGo_exhaust (env : GeminiEnv) (k : Nat) :
    ∀ (a : Nat) (ds : List Nat), a + k + 1 = 5 →
      (∀ i, a + 1 ≤ i → i ≤ 5 → isTransient (env.attempts i) = true) →
      transportGo env (k + 1) a ds = TransportPhase.noSuccess 5 (ds ++ backoffBases a k) := by
  induction k with
  | zero =>
      intro a ds ha htr
      rw [transportGo_transient_cap env 1 a ds (by omega)
            (htr (a + 1) (by omega) (by omega)) (by omega)]
      have h5 : a + 1 = 5 := by omega
      rw [h5]
      simp [backoffBases]
  | succ k ih =>
      intro a ds ha htr
      rw [transportGo_transient_step env (k + 1 + 1) a ds (by omega)
            (htr (a + 1) (by omega) (by omega)) (by omega)]
      have hred : k + 1 + 1 - 1 = k + 1 := by omega
      rw [hred]
      rw [ih (a + 1) (ds ++ [2 ^ (a + 1) * 1000]) (by omega)
            (fun i h1 h2 => htr i (by omega) h2)]
      rw [backoffBases_succ]
      simp

/-- A non-transient HTTP error breaks the loop and the final check
raises without any further attempt. -/
theorem transportGo_fatal_step (env : GeminiEnv) (fuel a : Nat) (ds : List Nat) (st : Nat)
    (hf : 0 < fuel)
    (h : env.attempts (a + 1) = TransportResult.httpErr st)
    (h503 : st ≠ 503) (h429 : st ≠ 429) :
    transportGo env fuel a ds = TransportPhase.noSuccess (a + 1) ds := by
  obtain ⟨f, rfl⟩ : ∃ f, fuel = f + 1 := ⟨fuel - 1, by omega⟩
  simp only [transportGo, h]
  rw [if_neg (not_or.mpr ⟨h503, h429⟩)]

/-- The parse phase issues at most one repair call. -/
theorem geminiParsePhase_repairs_le (env : GeminiEnv) (envelope : Option (Option String)) :
    (geminiParsePhase env envelope).2 ≤ 1 := by
  unfold geminiParsePhase
  repeat' split
  all_goals simp [apply_ite]

/-- The parse phase issues the repair call exactly when the envelope body
failed JSON.parse. -/
theorem geminiParsePhase_repairs_eq (env : GeminiEnv) (envelope : Option (Option String)) :
    (geminiParsePhase env envelope).2 = 1 ↔ envelope = none := by
  unfold geminiParsePhase
  repeat' split
  all_goals simp [apply_ite]

/-- On a malformed embedded payload, the parse phase runs only the local
bracket-extraction and control-character-stripping repair, with no repair
call. -/
theorem geminiParsePhase_payload (env : GeminiEnv) (txt : String)
    (hjs : env.jsonOk txt = false) :
    geminiParsePhase env (some (some txt)) =
      ((match extractJsonString txt with
        | some js =>
            if env.jsonOk (stripCtl js) then GeminiOutcome.success (stripCtl js)
            else GeminiOutcome.raised
        | none => GeminiOutcome.raised), 0) := by
  unfold geminiParsePhase
  simp only [hjs, Bool.false_eq_true, if_false]
  rcases extractJsonString txt with - | js
  · rfl
  · dsimp only
    by_cases hc : env.jsonOk (stripCtl js) = true <;> simp [hc]

/-- Claim C7 (amended): in the decision service client, (1) at most one
self-repair call is ever issued; (2) when the transport phase yields a
body, the self-repair call is issued exactly when the response body
itself is not valid JSON (the envelope SyntaxError of line 1931) — when
the envelope parses but the embedded payload is malformed, only the local
bracket-extraction plus control-character-stripping repair runs and a
second failure raises with zero repair calls; (3) transport failure
raises with zero repair calls; (4) k transient attempts (rejected fetch,
429 or 503) followed by a success use exactly k + 1 fetches with the
exponential base backoff delays between them; (5) five transient attempts
exhaust the cap and raise; (6) a non-transient HTTP error on the first
attempt raises immediately with no retry and no backoff. -/
theorem C7_gemini_retry_repair (env : GeminiEnv) :
    ((geminiCall env).repairCalls ≤ 1) ∧
    (∀ raw envb n ds, transportPhase env = TransportPhase.gotBody raw envb n ds →
      ((geminiCall env).repairCalls = 1 ↔ envb = none)) ∧
    (∀ n ds, transportPhase env = TransportPhase.noSuccess n ds →
      geminiCall env = { outcome := GeminiOutcome.raised, attemptsUsed := n,
                         backoffDelays := ds, repairCalls := 0 }) ∧
    (∀ raw txt n ds, transportPhase env = TransportPhase.gotBody raw (some (some txt)) n ds →
      env.jsonOk txt = false →
      (geminiCall env).repairCalls = 0 ∧
      (geminiCall env).outcome =
        (match extractJsonString txt with
         | some js =>
             if env.jsonOk (stripCtl js) then GeminiOutcome.success (stripCtl js)
             else GeminiOutcome.raised
         | none => GeminiOutcome.raised)) ∧
    (∀ k raw envb, k + 1 ≤ 5 →
      (∀ i, 1 ≤ i → i ≤ k → isTransient (env.attempts i) = true) →
      env.attempts (k + 1) = TransportResult.ok raw envb →
      transportPhase env = TransportPhase.gotBody raw envb (k + 1) (backoffBases 0 k)) ∧
    ((∀ i, 1 ≤ i → i ≤ 5 → isTransient (env.attempts i) = true) →
      geminiCall env = { outcome := GeminiOutcome.raised, attemptsUsed := 5,
                         backoffDelays := [2000, 4000, 8000, 16000], repairCalls := 0 }) ∧
    (∀ st, env.attempts 1 = TransportResult.httpErr st → st ≠ 503 → st ≠ 429 →
      geminiCall env = { outcome := GeminiOutcome.raised, attemptsUsed := 1,
                         backoffDelays := [], repairCalls := 0 }) := by
  refine ⟨?_, ?_, ?_, ?_, ?_, ?_, ?_⟩
  · rcases htp : transportPhase env with ⟨raw, envb, n, ds⟩ | ⟨n, ds⟩
    · have h := geminiParsePhase_repairs_le env envb
      rcases hpp : geminiParsePhase env envb with ⟨o, rc⟩
      rw [hpp] at h
      simpa [geminiCall, htp, hpp] using h
    · simp [geminiCall, htp]
  · intro raw envb n ds htp
    have h := geminiParsePhase_repairs_eq env envb
    rcases hpp : geminiParsePhase env envb with ⟨o, rc⟩
    rw [hpp] at h
    simpa [geminiCall, htp, hpp] using h
  · intro n ds htp
    simp [geminiCall, htp]
  · intro raw txt n ds htp hjs
    have h := geminiParsePhase_payload env txt hjs
    refine ⟨?_, ?_⟩ <;> simp [geminiCall, htp, h]
  · intro k raw envb hk htr hok
    have h := transportGo_runs env k 0 5 [] raw envb (by omega) (by omega)
      (fun i h1 h2 => htr i (by omega) (by omega)) (by simpa using hok)
    unfold transportPhase
    simpa using h
  · intro htr
    have h := transportGo_exhaust env 4 0 [] (by omega) (fun i h1 h2 => htr i h1 h2)
    have h5 : transportPhase env = TransportPhase.noSuccess 5 ([] ++ backoffBases 0 4) := h
    have hb : ([] ++ backoffBases 0 4 : List Nat) = [2000, 4000, 8000, 16000] := by decide
    rw [hb] at h5
    simp [geminiCall, h5]
  · intro st h1 hne503 hne429
    have htp : transportPhase env = TransportPhase.noSuccess 1 [] := by
      unfold transportPhase
      have h := transportGo_fatal_step env 5 0 [] st (by omega) (by simpa using h1)
        hne503 hne429
      simpa using h
    simp [geminiCall, htp]

/-- Witness for C7: five rejected fetches exhaust the retry cap with the
four exponential backoff delays; and an envelope that fails JSON.parse
issues the single self-repair call. -/
theorem C7_witness :
    (geminiCall gemEnvTransient =
      { outcome := GeminiOutcome.raised, attemptsUsed := 5,
        backoffDelays := [2000, 4000, 8000, 16000], repairCalls := 0 }) ∧
    ((geminiCall gemEnvEnvelopeBad).repairCalls = 1 ↔
      (none : Option (Option String)) = none) :=
  ⟨(C7_gemini_retry_repair gemEnvTransient).2.2.2.2.2.1 (fun _ _ _ => rfl),
   (C7_gemini_retry_repair gemEnvEnvelopeBad).2.1 "notjson" none 1 [] rfl⟩

/-- Counterexample to C7 as stated: a response whose envelope parses but
whose embedded payload fails parsing, and on which the local
bracket-extraction repair also fails (no bracket characters).  The claim
says that when the local repair also fails exactly one secondary repair
call is issued; the code instead raises a plain Error, which the outer
catch re-raises without any repair call (only the envelope SyntaxError of
line 1931 triggers the repair call).  The run below makes zero repair
calls. -/
theorem C7_counterexample :
    gemEnvPayloadFail.jsonOk "hello" = false ∧
    extractJsonString "hello" = none ∧
    geminiCall gemEnvPayloadFail =
      { outcome := GeminiOutcome.raised, attemptsUsed := 1,
        backoffDelays := [], repairCalls := 0 } :=
  ⟨rfl, rfl, rfl⟩

/-- Claim C3 (amended): currentStep advances by exactly 1 on a recorded
success event (ACTION_COMPLETE delivered in EXECUTING, WAITING or
TEACHING) exactly when it is strictly below the last plan index, and is
otherwise unchanged; the plan is unchanged by the advance, so an in-range
step stays in range across success events; and a successful replan
(REPLAN_COMPLETE in REPLANNING) resets currentStep to 0.  The global
bound of the original claim does not hold: ATTEMPT_STRATEGY installs a
new plan without resetting currentStep (src/background.ts lines
321-330). -/
theorem C3_step_advance
    (s : SysState) (t : AgentState) (pd : Option ManagerDecision) (env : ExecEnv)
    (plan2 : List String) (th : String)
    (ht : s.currentTask = some t)
    (hst : t.status = TaskStatus.EXECUTING ∨ t.status = TaskStatus.WAITING ∨
           t.status = TaskStatus.TEACHING) :
    ((agentOrchestrator s (.ACTION_COMPLETE pd env)).1.currentTask.map AgentState.currentStep =
      some (if t.currentStep < t.plan.length - 1 then t.currentStep + 1 else t.currentStep)) ∧
    ((agentOrchestrator s (.ACTION_COMPLETE pd env)).1.currentTask.map AgentState.plan =
      some t.plan) ∧
    (∀ s2 t2, s2.currentTask = some t2 → t2.status = TaskStatus.REPLANNING →
      (agentOrchestrator s2 (.REPLAN_COMPLETE plan2 th)).1.currentTask.map
        AgentState.currentStep = some 0) ∧
    (t.currentStep ≤ t.plan.length - 1 →
      ∀ u, (agentOrchestrator s (.ACTION_COMPLETE pd env)).1.currentTask = some u →
        u.currentStep ≤ u.plan.length - 1) := by
  have hdisp : agentOrchestrator s (.ACTION_COMPLETE pd env) =
      (withTask s stepAdvance, [Emit.RUN_NEXT_TURN]) := by
    rcases hst with h | h | h <;> simp [agentOrchestrator, ht, h]
  refine ⟨?_, ?_, ?_, ?_⟩
  · rw [hdisp]
    simp [withTask, ht, stepAdvance]
  · rw [hdisp]
    simp [withTask, ht, stepAdvance]
  · intro s2 t2 ht2 hst2
    simp [agentOrchestrator, ht2, hst2, withTask, addToScratchpad]
  · intro hle u hu
    rw [hdisp] at hu
    simp [withTask, ht] at hu
    subst hu
    simp only [stepAdvance]
    split <;> omega

/-- Witness for C3: the success advance from step 1 of a 4-step plan goes
to step 2, and a replan resets the step to 0. -/
theorem C3_witness :
    ((agentOrchestrator executingState (.ACTION_COMPLETE none envVerifierThrew)).1.currentTask.map
        AgentState.currentStep = some 2) ∧
    ((agentOrchestrator replanningState (.REPLAN_COMPLETE ["one"] "t")).1.currentTask.map
        AgentState.currentStep = some 0) := by
  constructor
  · have h := (C3_step_advance executingState executingTask none envVerifierThrew
      ["one"] "t" rfl (Or.inl rfl)).1
    simpa [executingTask, freshTask] using h
  · exact (C3_step_advance executingState executingTask none envVerifierThrew
      ["one"] "t" rfl (Or.inl rfl)).2.2.1 replanningState replanningTask rfl rfl

/-- Counterexample to C3 as stated: after two success advances under a
4-step plan, ATTEMPT_STRATEGY installs a 1-step plan without resetting
currentStep, leaving currentStep = 2 with plan.length - 1 = 0, so
currentStep exceeds the last plan index. -/
theorem C3_counterexample :
    ((runEvents initState
        [Event.START_TASK "g",
         Event.RESEARCH_COMPLETE
           { thought := "t", facts := [], requires_browser := true, requires_vault := false }
           true (some { thought := "p", plan := ["a", "b", "c", "d"] }) none,
         Event.PLAN_COMPLETE ["a", "b", "c", "d"] "p",
         Event.RUN_NEXT_TURN
           { startTab := some 7, observe := ObserveOutcome.okSnap "Page",
             manager := ManagerOutcome.decided (mkDecision .CLICK none (some "#btn") none),
             presenterEmpty := none, presenterLimit := none },
         Event.ACTION_COMPLETE (some (mkDecision .CLICK none (some "#btn") none)) envVerifierThrew,
         Event.ACTION_COMPLETE none envVerifierThrew,
         Event.ACTION_COMPLETE none envVerifierThrew,
         Event.ATTEMPT_STRATEGY ["one"]]).currentTask.map
        (fun t => (t.currentStep, t.plan.length)) = some (2, 1)) ∧
    ¬ (2 ≤ 1 - 1) := by
  decide

/- ===== Durable-store (vault) frame lemmas per handler ===== -/

@[simp] theorem finishAction_vault (s : SysState) (d : ManagerDecision) (env : ExecEnv) (b : Bool) :
    (finishAction s d env b).1.vaultStore = s.vaultStore := by
  unfold finishAction
  repeat' split
  all_goals simp

@[simp] theorem handleActionExec_vault (s : SysState) (d : ManagerDecision) (env : ExecEnv) :
    (handleActionExec s d env).1.vaultStore = s.vaultStore := by
  unfold handleActionExec
  dsimp only
  repeat' split
  all_goals simp

@[simp] theorem handleAction_vault (s : SysState) (d : ManagerDecision) (env : ExecEnv) :
    (handleAction s d env).1.vaultStore = s.vaultStore := by
  unfold handleAction
  dsimp only
  repeat' split
  all_goals simp

@[simp] theorem executingActionFailed_vault (s : SysState) (d : ManagerDecision)
    (host : Option String) :
    (executingActionFailed s d host).1.vaultStore = s.vaultStore := by
  unfold executingActionFailed
  dsimp only
  repeat' split
  all_goals simp

@[simp] theorem runNextTurnObserve_vault2 (s : SysState) (o : TurnOracle) :
    (runNextTurnObserve s o).1.vaultStore = s.vaultStore := by
  unfold runNextTurnObserve
  dsimp only
  repeat' split
  all_goals simp

@[simp] theorem runNextTurn_vault (s : SysState) (o : TurnOracle) :
    (runNextTurn s o).1.vaultStore = s.vaultStore := by
  unfold runNextTurn
  dsimp only
  repeat' split
  all_goals simp

@[simp] theorem timerFired_vault (s : SysState) (tid : Nat) :
    (timerFired s tid).1.vaultStore = s.vaultStore := by
  unfold timerFired
  dsimp only
  repeat' split
  all_goals simp

@[simp] theorem researchComplete_vault (s : SysState) (d : ResearcherDecision) (vu : Bool)
    (po : Option PlannerDecision) (pr : Option PresenterDecision) :
    (researchComplete s d vu po pr).1.vaultStore = s.vaultStore := by
  unfold researchComplete
  dsimp only
  repeat' split
  all_goals simp

@[simp] theorem teachingSummaryResolved_vault (s : SysState) (origId : Nat)
    (summary : Option String) (toolHost : Option String) :
    (teachingSummaryResolved s origId summary toolHost).1.vaultStore = s.vaultStore := by
  unfold teachingSummaryResolved
  dsimp only
  repeat' split
  all_goals simp

@[simp] theorem handleRecordedAction_vault (s : SysState) (a : String) (host : Option String) :
    (handleRecordedAction s a host).1.vaultStore = s.vaultStore := by
  unfold handleRecordedAction
  dsimp only
  repeat' split
  all_goals simp

@[simp] theorem handleUnlockVault_vault (s : SysState) (ok : Bool) (po : Option PlannerDecision) :
    (handleUnlockVault s ok po).1.vaultStore = s.vaultStore := by
  unfold handleUnlockVault
  dsimp only
  repeat' split
  all_goals simp

@[simp] theorem handleStartTask_vault (s : SysState) (g : String) :
    (handleStartTask s g).1.vaultStore = s.vaultStore := by
  unfold handleStartTask
  dsimp only
  repeat' split
  all_goals simp

@[simp] theorem handleStopTask_vault (s : SysState) :
    (handleStopTask s).1.vaultStore = s.vaultStore := by
  unfold handleStopTask
  dsimp only
  repeat' split
  all_goals simp

@[simp] theorem handleResetTaskSession_vault (s : SysState) :
    (handleResetTaskSession s).1.vaultStore = s.vaultStore := by
  unfold handleResetTaskSession
  dsimp only
  repeat' split
  all_goals simp

@[simp] theorem handleTakeOver_vault (s : SysState) :
    (handleTakeOver s).1.vaultStore = s.vaultStore := by
  unfold handleTakeOver
  dsimp only
  repeat' split
  all_goals simp

@[simp] theorem handleGoAutonomous_vault (s : SysState) :
    (handleGoAutonomous s).1.vaultStore = s.vaultStore := by
  unfold handleGoAutonomous
  dsimp only
  repeat' split
  all_goals simp

@[simp] theorem handleStartTeaching_vault (s : SysState) (g : String) (tab : Option Nat) :
    (handleStartTeaching s g tab).1.vaultStore = s.vaultStore := by
  unfold handleStartTeaching
  dsimp only
  repeat' split
  all_goals simp

@[simp] theorem handleStopTeaching_vault (s : SysState) :
    (handleStopTeaching s).1.vaultStore = s.vaultStore := by
  unfold handleStopTeaching
  repeat' split
  all_goals simp

@[simp] theorem handleDeleteHistoricalTask_vault (s : SysState) (ts : Nat) :
    (handleDeleteHistoricalTask s ts).1.vaultStore = s.vaultStore := by
  unfold handleDeleteHistoricalTask
  simp

@[simp] theorem deliberatePersonas_vault (s : SysState) (names : List String) :
    (deliberatePersonas s names).1.vaultStore = s.vaultStore := by
  unfold deliberatePersonas
  dsimp only
  repeat' split
  all_goals simp

@[simp] theorem deliberateConsensus_vault (s : SysState) (html : String) (plan : List String) :
    (deliberateConsensus s html plan).1.vaultStore = s.vaultStore := by
  unfold deliberateConsensus
  dsimp only
  repeat' split
  all_goals simp

@[simp] theorem deliberateErrored_vault (s : SysState) (msg : String) :
    (deliberateErrored s msg).1.vaultStore = s.vaultStore := by
  unfold deliberateErrored
  repeat' split
  all_goals simp

/- ===== Credential-ownership invariant machinery ===== -/

theorem credInv_of_status (s2 : SysState)
    (hstat : ∀ t, s2.currentTask = some t →
      t.status ≠ TaskStatus.AWAITING_CREDENTIAL_NAME) : CredInv s2 :=
  fun t _ ht hst _ => absurd hst (hstat t ht)

theorem credInv_carry (s s2 : SysState) (h : CredInv s)
    (hct : s2.currentTask = s.currentTask)
    (hpv : s2.pendingCredentialValue = s.pendingCredentialValue)
    (hpo : s2.pendingCredentialOwner = s.pendingCredentialOwner) : CredInv s2 := by
  intro t v ht hst hv
  rw [hct] at ht
  rw [hpv] at hv
  rw [hpo]
  exact h t v ht hst hv

theorem credInv_withTask (s : SysState) (f : AgentState → AgentState) (h : CredInv s)
    (hf : ∀ u, (f u).status = u.status ∧ (f u).id = u.id) : CredInv (withTask s f) := by
  intro t v ht hst hv
  rcases hc : s.currentTask with - | t0
  · simp [withTask, hc] at ht
  · simp [withTask, hc] at ht
    subst ht
    rw [(hf t0).2]
    exact h t0 v hc (by rw [← (hf t0).1]; exact hst) hv

theorem credInv_addToScratchpad (s : SysState) (m : String) (h : CredInv s) :
    CredInv (addToScratchpad s m) :=
  credInv_withTask s _ h (fun u => ⟨rfl, rfl⟩)

theorem credInv_updateTaskStatus (s : SysState) (st : TaskStatus) (r : Option String)
    (hok : st ≠ TaskStatus.AWAITING_CREDENTIAL_NAME) : CredInv (updateTaskStatus s st r) := by
  apply credInv_of_status
  intro t ht
  unfold updateTaskStatus at ht
  rcases hc : s.currentTask with - | t0
  all_goals
    repeat' split at ht
    all_goals simp [withTask, addToScratchpad, hc] at ht
    all_goals (try subst ht)
    all_goals simp_all

theorem credInv_saveHistoricalTask (s : SysState) (g : String) (h : CredInv s) :
    CredInv (saveHistoricalTask s g) :=
  credInv_carry s _ h (by simp) (by simp) (by simp)

theorem credInv_saveCompletedTask (s : SysState) (h : CredInv s) :
    CredInv (saveCompletedTask s) :=
  credInv_carry s _ h (by simp) (by simp) (by simp)

theorem credInv_of_map (s s2 : SysState) (h : CredInv s)
    (hct : s2.currentTask.map (fun u => (u.status, u.id)) =
      s.currentTask.map (fun u => (u.status, u.id)))
    (hpv : s2.pendingCredentialValue = s.pendingCredentialValue)
    (hpo : s2.pendingCredentialOwner = s.pendingCredentialOwner) : CredInv s2 := by
  intro t v ht hst hv
  rcases hc : s.currentTask with - | t0
  · rw [hc] at hct
    rw [ht] at hct
    simp at hct
  · rw [hc] at hct
    rw [ht] at hct
    simp at hct
    obtain ⟨hs, hid⟩ := hct
    rw [hpo, hid]
    exact h t0 v hc (by rw [← hs]; exact hst) (by rw [← hpv]; exact hv)

@[simp] theorem clearWaitTimeout_task_map (s : SysState) :
    (clearWaitTimeout s).currentTask.map (fun u => (u.status, u.id)) =
      s.currentTask.map (fun u => (u.status, u.id)) := by
  unfold clearWaitTimeout
  repeat' split
  all_goals simp_all

theorem credInv_clearWaitTimeout (s : SysState) (h : CredInv s) :
    CredInv (clearWaitTimeout s) :=
  credInv_of_map s _ h (clearWaitTimeout_task_map s) (by simp) (by simp)

theorem credInv_handleStuckState (s : SysState) (b : Bool) :
    CredInv (handleStuckState s b) := by
  apply credInv_of_status
  intro t ht
  have hm := handleStuckState_status_map s b
  rw [ht] at hm
  rcases hc : s.currentTask with - | t0
  · rw [hc] at hm
    simp at hm
  · rw [hc] at hm
    simp at hm
    simp [hm]

theorem credInv_finishAction (s : SysState) (d : ManagerDecision) (env : ExecEnv) (b : Bool)
    (h : CredInv s) : CredInv (finishAction s d env b).1 := by
  unfold finishAction
  dsimp only
  repeat' split
  all_goals first
    | exact h
    | exact credInv_addToScratchpad _ _ (credInv_withTask _ _ h (fun u => ⟨rfl, rfl⟩))

theorem credInv_pendingSet (s2 : SysState) (n : Nat) (v0 : String) (m2 : String)
    (hid : ∀ u, s2.currentTask = some u → u.id = n) :
    CredInv (addToScratchpad (updateTaskStatus
      { s2 with pendingCredentialValue := some v0, pendingCredentialOwner := some n }
      TaskStatus.AWAITING_CREDENTIAL_NAME none) m2) := by
  intro t v ht hst hv
  simp only [addToScratchpad, updateTaskStatus, withTask] at ht ⊢
  rcases hcc : s2.currentTask with - | u
  · simp [hcc] at ht
  · simp [hcc] at ht
    subst ht
    simp [hid u hcc]

theorem credInv_handleActionExec (s : SysState) (d : ManagerDecision) (env : ExecEnv)
    (h : CredInv s) : CredInv (handleActionExec s d env).1 := by
  unfold handleActionExec
  rcases hc : s.currentTask with - | t0
  · exact h
  · dsimp only
    have h2 : ∀ m, CredInv (addToScratchpad (updateTaskStatus s TaskStatus.EXECUTING none) m) :=
      fun m => credInv_addToScratchpad _ _ (credInv_updateTaskStatus s _ none (by decide))
    repeat' split
    all_goals try exact h2 _
    all_goals try exact credInv_handleStuckState _ _
    all_goals try exact credInv_updateTaskStatus _ _ _ (by decide)
    all_goals try exact credInv_saveCompletedTask _ (credInv_updateTaskStatus _ _ none (by decide))
    all_goals try exact credInv_finishAction _ _ _ _ (h2 _)
    all_goals try exact credInv_finishAction _ _ _ _ (credInv_addToScratchpad _ _ (credInv_withTask _ _ (h2 _) (fun u => ⟨rfl, rfl⟩)))
    all_goals try exact credInv_addToScratchpad _ _ (credInv_withTask _ _ (h2 _) (fun u => ⟨rfl, rfl⟩))
    all_goals try exact credInv_addToScratchpad _ _ (h2 _)
    all_goals try dsimp only
    all_goals try exact credInv_withTask _ _ (credInv_carry _ _ (credInv_addToScratchpad _ _ (credInv_updateTaskStatus _ _ none (by decide))) rfl rfl rfl) (fun u => ⟨rfl, rfl⟩)
    all_goals try exact credInv_finishAction _ _ _ _ (credInv_withTask _ _ (h2 _) (fun u => ⟨rfl, rfl⟩))
    all_goals try exact credInv_finishAction _ _ _ _ (credInv_addToScratchpad _ _ (credInv_withTask _ _ (h2 _) (fun u => ⟨rfl, rfl⟩)))
    all_goals apply credInv_pendingSet
    all_goals intro u hu
    all_goals simp [addToScratchpad, updateTaskStatus, withTask, hc] at hu
    all_goals first
      | (subst hu; rfl)
      | (subst hu; simp)
      | simp [hu]

theorem credInv_handleAction (s : SysState) (d : ManagerDecision) (env : ExecEnv)
    (h : CredInv s) : CredInv (handleAction s d env).1 := by
  unfold handleAction
  dsimp only
  repeat' split
  all_goals try exact h
  all_goals try exact credInv_handleActionExec _ _ _ h
  all_goals try exact credInv_addToScratchpad _ _ (credInv_addToScratchpad _ _ (credInv_updateTaskStatus _ _ none (by decide)))
  all_goals try exact credInv_handleActionExec _ _ _ (credInv_addToScratchpad _ _ (credInv_addToScratchpad _ _ (credInv_updateTaskStatus _ _ none (by decide))))

theorem credInv_executingActionFailed (s : SysState) (d : ManagerDecision)
    (host : Option String) (h : CredInv s) : CredInv (executingActionFailed s d host).1 := by
  unfold executingActionFailed
  dsimp only
  repeat' split
  all_goals try exact credInv_handleStuckState _ _
  all_goals try exact credInv_withTask _ _ h (fun u => ⟨rfl, rfl⟩)
  all_goals try exact credInv_withTask _ _ (credInv_addToScratchpad _ _ (credInv_withTask _ _ h (fun u => ⟨rfl, rfl⟩))) (fun u => ⟨rfl, rfl⟩)

theorem credInv_timerFired (s : SysState) (tid : Nat) (h : CredInv s) :
    CredInv (timerFired s tid).1 := by
  unfold timerFired
  dsimp only
  repeat' split
  all_goals try exact h
  all_goals try exact credInv_carry s _ h rfl rfl rfl
  all_goals try exact credInv_withTask _ _ (credInv_withTask _ _ (credInv_addToScratchpad _ _ (credInv_carry s _ h rfl rfl rfl)) (fun u => ⟨rfl, rfl⟩)) (fun u => ⟨rfl, rfl⟩)

theorem credInv_handleRecordedAction (s : SysState) (a : String) (host : Option String)
    (h : CredInv s) : CredInv (handleRecordedAction s a host).1 := by
  unfold handleRecordedAction
  dsimp only
  repeat' split
  all_goals try exact h
  all_goals try exact credInv_addToScratchpad _ _ h
  all_goals try exact credInv_carry _ _ (credInv_addToScratchpad _ _ h) rfl rfl rfl
  all_goals try exact credInv_addToScratchpad _ _ (credInv_withTask _ _ h (fun u => ⟨rfl, rfl⟩))
  all_goals try exact credInv_addToScratchpad _ _ (credInv_withTask _ _ (credInv_addToScratchpad _ _ h) (fun u => ⟨rfl, rfl⟩))
  all_goals try exact credInv_addToScratchpad _ _ (credInv_withTask _ _ (credInv_carry _ _ (credInv_addToScratchpad _ _ h) rfl rfl rfl) (fun u => ⟨rfl, rfl⟩))

theorem credInv_researchComplete (s : SysState) (d : ResearcherDecision) (vu : Bool)
    (po : Option PlannerDecision) (pr : Option PresenterDecision) (h : CredInv s) :
    CredInv (researchComplete s d vu po pr).1 := by
  unfold researchComplete
  dsimp only
  repeat' split
  all_goals try exact credInv_updateTaskStatus _ _ none (by decide)
  all_goals try exact credInv_saveCompletedTask _ (credInv_updateTaskStatus _ _ none (by decide))

theorem credInv_teachingSummaryResolved (s : SysState) (origId : Nat)
    (summary : Option String) (toolHost : Option String) (h : CredInv s) :
    CredInv (teachingSummaryResolved s origId summary toolHost).1 := by
  unfold teachingSummaryResolved
  dsimp only
  repeat' split
  all_goals try exact h
  all_goals try exact credInv_saveCompletedTask _ (credInv_updateTaskStatus _ _ none (by decide))

theorem credInv_handleUnlockVault (s : SysState) (ok : Bool) (po : Option PlannerDecision)
    (h : CredInv s) : CredInv (handleUnlockVault s ok po).1 := by
  unfold handleUnlockVault
  dsimp only
  repeat' split
  all_goals try exact h
  all_goals try exact credInv_addToScratchpad _ _ h
  all_goals try exact credInv_updateTaskStatus _ _ _ (by decide)
  all_goals try exact credInv_updateTaskStatus _ _ none (by decide)

theorem credInv_handleSaveCredential (s : SysState) (name : String) (ok : Bool)
    (h : CredInv s) : CredInv (handleSaveCredential s name ok).1 := by
  unfold handleSaveCredential
  dsimp only
  repeat' split
  all_goals try exact credInv_addToScratchpad _ _ h
  all_goals try exact credInv_updateTaskStatus _ _ _ (by decide)
  -- success branch: the pending slot is cleared, so the invariant is vacuous
  all_goals intro t v ht hst hv
  all_goals simp [addToScratchpad, withTask] at hv

theorem credInv_runNextTurnObserve (s : SysState) (o : TurnOracle) :
    CredInv (runNextTurnObserve s o).1 := by
  unfold runNextTurnObserve
  dsimp only
  repeat' split
  all_goals try exact credInv_handleStuckState _ _
  all_goals try exact credInv_updateTaskStatus _ _ _ (by decide)
  all_goals try exact credInv_addToScratchpad _ _ (credInv_updateTaskStatus _ _ none (by decide))
  all_goals try exact credInv_addToScratchpad _ _ (credInv_addToScratchpad _ _ (credInv_updateTaskStatus _ _ none (by decide)))
  all_goals try exact credInv_saveCompletedTask _ (credInv_updateTaskStatus _ _ none (by decide))

theorem credInv_runNextTurn (s : SysState) (o : TurnOracle) (h : CredInv s) :
    CredInv (runNextTurn s o).1 := by
  unfold runNextTurn
  dsimp only
  repeat' split
  all_goals try exact h
  all_goals try exact credInv_runNextTurnObserve _ _
  all_goals try exact credInv_updateTaskStatus _ _ _ (by decide)
  all_goals try exact credInv_saveCompletedTask _ (credInv_updateTaskStatus _ _ none (by decide))

theorem credInv_deliberatePersonas (s : SysState) (names : List String) (h : CredInv s) :
    CredInv (deliberatePersonas s names).1 := by
  unfold deliberatePersonas
  dsimp only
  repeat' split
  all_goals try exact h
  all_goals try exact credInv_updateTaskStatus _ _ none (by decide)

theorem credInv_deliberateConsensus (s : SysState) (html : String) (plan : List String)
    (h : CredInv s) : CredInv (deliberateConsensus s html plan).1 := by
  unfold deliberateConsensus
  dsimp only
  repeat' split
  all_goals try exact h
  all_goals try exact credInv_saveCompletedTask _ (credInv_updateTaskStatus _ _ none (by decide))

theorem credInv_deliberateErrored (s : SysState) (msg : String) (h : CredInv s) :
    CredInv (deliberateErrored s msg).1 := by
  unfold deliberateErrored
  repeat' split
  all_goals try exact h
  all_goals try exact credInv_updateTaskStatus _ _ _ (by decide)

theorem credInv_handleTakeOver (s : SysState) (h : CredInv s) :
    CredInv (handleTakeOver s).1 := by
  unfold handleTakeOver
  dsimp only
  repeat' split
  all_goals try exact h
  all_goals try exact credInv_updateTaskStatus _ _ _ (by decide)

theorem credInv_handleGoAutonomous (s : SysState) (h : CredInv s) :
    CredInv (handleGoAutonomous s).1 := by
  unfold handleGoAutonomous
  dsimp only
  repeat' split
  all_goals try exact h
  all_goals try exact credInv_handleStuckState _ _

theorem credInv_handleStopTeaching (s : SysState) (h : CredInv s) :
    CredInv (handleStopTeaching s).1 := by
  unfold handleStopTeaching
  repeat' split
  all_goals try exact h
  all_goals try exact credInv_addToScratchpad _ _ h

theorem credInv_handleDeleteHistoricalTask (s : SysState) (ts : Nat) (h : CredInv s) :
    CredInv (handleDeleteHistoricalTask s ts).1 :=
  credInv_carry s _ h rfl rfl rfl

theorem credInv_handleStartTask (s : SysState) (g : String) :
    CredInv (handleStartTask s g).1 := by
  apply credInv_of_status
  intro t ht
  unfold handleStartTask at ht
  dsimp only at ht
  simp at ht
  rw [← ht]
  simp [freshTask]

theorem credInv_handleStartTeaching (s : SysState) (g : String) (tab : Option Nat) :
    CredInv (handleStartTeaching s g tab).1 := by
  apply credInv_of_status
  intro t ht
  unfold handleStartTeaching at ht
  dsimp only at ht
  simp at ht
  rw [← ht]
  simp

theorem credInv_handleStopTask (s : SysState) (h : CredInv s) :
    CredInv (handleStopTask s).1 := by
  unfold handleStopTask
  dsimp only
  repeat' split
  all_goals try exact h
  all_goals intro t v ht hst hv
  all_goals simp at ht

theorem credInv_handleResetTaskSession (s : SysState) (h : CredInv s) :
    CredInv (handleResetTaskSession s).1 := by
  unfold handleResetTaskSession
  dsimp only
  repeat' split
  all_goals try exact h
  all_goals intro t v ht hst hv
  all_goals simp at ht

/-- No orchestrator event can break the credential-ownership invariant. -/
theorem credInv_step (s : SysState) (e : Event) (h : CredInv s) :
    CredInv (agentOrchestrator s e).1 := by
  cases e
  all_goals simp only [agentOrchestrator]
  all_goals try dsimp only
  all_goals repeat' split
  all_goals try exact h
  all_goals try exact credInv_handleStartTask _ _
  all_goals try exact credInv_handleStopTask _ h
  all_goals try exact credInv_handleResetTaskSession _ h
  all_goals try exact credInv_handleTakeOver _ h
  all_goals try exact credInv_handleGoAutonomous _ h
  all_goals try exact credInv_handleRecordedAction _ _ _ h
  all_goals try exact credInv_handleStartTeaching _ _ _
  all_goals try exact credInv_handleStopTeaching _ h
  all_goals try exact credInv_teachingSummaryResolved _ _ _ _ h
  all_goals try exact credInv_handleUnlockVault _ _ _ h
  all_goals try exact credInv_handleDeleteHistoricalTask _ _ h
  all_goals try exact credInv_handleSaveCredential _ _ _ h
  all_goals try exact credInv_timerFired _ _ h
  all_goals try exact credInv_deliberatePersonas _ _ h
  all_goals try exact credInv_deliberateConsensus _ _ _ h
  all_goals try exact credInv_deliberateErrored _ _ h
  all_goals try exact credInv_runNextTurn _ _ h
  all_goals try exact credInv_researchComplete _ _ _ _ _ h
  all_goals try exact credInv_handleAction _ _ _ h
  all_goals try exact credInv_executingActionFailed _ _ _ h
  all_goals try exact credInv_updateTaskStatus _ _ _ (by decide)
  all_goals try exact credInv_addToScratchpad _ _ h
  all_goals try exact credInv_withTask _ _ h (fun u => ⟨rfl, rfl⟩)
  all_goals try exact credInv_addToScratchpad _ _ (credInv_withTask _ _ h (fun u => ⟨rfl, rfl⟩))

/-- The invariant holds at startup and along every event trace. -/
theorem credInv_run (es : List Event) : CredInv (runEvents initState es) := by
  have h0 : CredInv initState := by
    intro t v ht hst hv
    simp [initState] at ht
  have hstep : ∀ (sx : SysState) (l : List Event), CredInv sx → CredInv (runEvents sx l) := by
    intro sx l
    induction l generalizing sx with
    | nil => exact fun hx => hx
    | cons e l ih => exact fun hx => ih _ (credInv_step sx e hx)
  exact hstep initState es h0

/-- The durable credential store changes only on a successful
SAVE_CREDENTIAL event processed in AWAITING_CREDENTIAL_NAME with a
pending value, which appends exactly that name/value pair and clears the
pending slot. -/
theorem vault_write_characterization (s : SysState) (e : Event) :
    (agentOrchestrator s e).1.vaultStore = s.vaultStore ∨
    (∃ name t v, e = Event.SAVE_CREDENTIAL name true ∧ s.currentTask = some t ∧
      t.status = TaskStatus.AWAITING_CREDENTIAL_NAME ∧
      s.pendingCredentialValue = some v ∧
      (agentOrchestrator s e).1.vaultStore = s.vaultStore ++ [(name, v)] ∧
      (agentOrchestrator s e).1.pendingCredentialValue = none) := by
  cases e
  case SAVE_CREDENTIAL name ok =>
    simp only [agentOrchestrator]
    unfold handleSaveCredential
    cases ok
    · rcases hc : s.currentTask with - | t0
      · left
        simp
      · dsimp only
        repeat' split
        all_goals left
        all_goals simp_all
    · rcases hc : s.currentTask with - | t0
      · left
        simp
      · dsimp only
        split
        · rename_i hstat
          rcases hpv : s.pendingCredentialValue with - | v0
          · left
            simp
          · right
            refine ⟨name, t0, v0, rfl, rfl, hstat, rfl, ?_, ?_⟩ <;>
              simp [addToScratchpad, withTask, hpv]
        · left
          simp
  all_goals left
  all_goals simp only [agentOrchestrator]
  all_goals try dsimp only
  all_goals repeat' split
  all_goals simp

@[simp] theorem handleStartTask_pendingValue (s : SysState) (g : String) :
    (handleStartTask s g).1.pendingCredentialValue = s.pendingCredentialValue := by
  unfold handleStartTask
  dsimp only
  repeat' split
  all_goals simp

@[simp] theorem handleStopTask_pendingValue (s : SysState) :
    (handleStopTask s).1.pendingCredentialValue = s.pendingCredentialValue := by
  unfold handleStopTask
  dsimp only
  repeat' split
  all_goals simp

@[simp] theorem handleResetTaskSession_pendingValue (s : SysState) :
    (handleResetTaskSession s).1.pendingCredentialValue = s.pendingCredentialValue := by
  unfold handleResetTaskSession
  dsimp only
  repeat' split
  all_goals simp

/-- Claim C1 (amended, spec-modelled vault): (1) the durable store changes
only when a SAVE_CREDENTIAL event succeeds for a task awaiting a
credential name with the pending slot set, appending exactly the pending
value under the given name and clearing the slot; (2) contrary to the
claim, starting a new task or terminating the task does NOT discard the
pending value — START_TASK, STOP_TASK and RESET_TASK_SESSION all leave
the slot untouched; (3) nevertheless, on every reachable state the
credential-ownership invariant holds: a task awaiting a credential name
with a pending value is the task that stashed it, because the
AWAITING_CREDENTIAL_NAME status and the slot owner are only ever set
together — so the retained stale value can never be written to the vault
under a later task; it is merely retained in memory. -/
theorem C1_credential_lifecycle :
    (∀ s e, (agentOrchestrator s e).1.vaultStore = s.vaultStore ∨
      (∃ name t v, e = Event.SAVE_CREDENTIAL name true ∧ s.currentTask = some t ∧
        t.status = TaskStatus.AWAITING_CREDENTIAL_NAME ∧
        s.pendingCredentialValue = some v ∧
        (agentOrchestrator s e).1.vaultStore = s.vaultStore ++ [(name, v)] ∧
        (agentOrchestrator s e).1.pendingCredentialValue = none)) ∧
    (∀ s goal,
      (agentOrchestrator s (.START_TASK goal)).1.pendingCredentialValue =
        s.pendingCredentialValue ∧
      (agentOrchestrator s .STOP_TASK).1.pendingCredentialValue = s.pendingCredentialValue ∧
      (agentOrchestrator s .RESET_TASK_SESSION).1.pendingCredentialValue =
        s.pendingCredentialValue) ∧
    (∀ es, CredInv (runEvents initState es)) := by
  refine ⟨fun s e => vault_write_characterization s e, fun s goal => ⟨?_, ?_, ?_⟩, credInv_run⟩
  all_goals simp [agentOrchestrator]

/-- Witness for C1: on a state awaiting a credential name with pending
value hunter2, the characterization applies to a successful
SAVE_CREDENTIAL; START_TASK leaves the pending slot untouched; and the
ownership invariant holds along a concrete trace. -/
theorem C1_witness :
    ((agentOrchestrator awaitingState (Event.SAVE_CREDENTIAL "portal password" true)).1.vaultStore =
        awaitingState.vaultStore ∨
      (∃ name t v, Event.SAVE_CREDENTIAL "portal password" true = Event.SAVE_CREDENTIAL name true ∧
        awaitingState.currentTask = some t ∧
        t.status = TaskStatus.AWAITING_CREDENTIAL_NAME ∧
        awaitingState.pendingCredentialValue = some v ∧
        (agentOrchestrator awaitingState (Event.SAVE_CREDENTIAL "portal password" true)).1.vaultStore =
          awaitingState.vaultStore ++ [(name, v)] ∧
        (agentOrchestrator awaitingState
          (Event.SAVE_CREDENTIAL "portal password" true)).1.pendingCredentialValue = none)) ∧
    ((agentOrchestrator awaitingState (.START_TASK "b")).1.pendingCredentialValue =
      awaitingState.pendingCredentialValue) ∧
    CredInv (runEvents initState [Event.START_TASK "log into the portal"]) :=
  ⟨C1_credential_lifecycle.1 awaitingState (Event.SAVE_CREDENTIAL "portal password" true),
   (C1_credential_lifecycle.2.1 awaitingState "b").1,
   C1_credential_lifecycle.2.2 [Event.START_TASK "log into the portal"]⟩

/-- Counterexample to C1 as stated: a task stashes hunter2 via
SAVE_CREDENTIAL_VALUE and is awaiting a credential name; the user then
starts a new task.  The claim says the pending value is discarded; in
fact it survives the task replacement (held in memory under the old
owner, task 1, while task 2 is active). -/
theorem C1_counterexample :
    ((runEvents initState
        [Event.START_TASK "log into the portal",
         Event.RESEARCH_COMPLETE
           { thought := "t", facts := [], requires_browser := true, requires_vault := false }
           true (some { thought := "p", plan := ["fill the login form"] }) none,
         Event.PLAN_COMPLETE ["fill the login form"] "p",
         Event.RUN_NEXT_TURN
           { startTab := some 7, observe := ObserveOutcome.okSnap "Portal",
             manager := ManagerOutcome.decided
               (mkDecision .SAVE_CREDENTIAL_VALUE none none (some "hunter2")),
             presenterEmpty := none, presenterLimit := none },
         Event.ACTION_COMPLETE
           (some (mkDecision .SAVE_CREDENTIAL_VALUE none none (some "hunter2")))
           envVerifierThrew,
         Event.START_TASK "another errand"]).pendingCredentialValue = some "hunter2") ∧
    ((runEvents initState
        [Event.START_TASK "log into the portal",
         Event.RESEARCH_COMPLETE
           { thought := "t", facts := [], requires_browser := true, requires_vault := false }
           true (some { thought := "p", plan := ["fill the login form"] }) none,
         Event.PLAN_COMPLETE ["fill the login form"] "p",
         Event.RUN_NEXT_TURN
           { startTab := some 7, observe := ObserveOutcome.okSnap "Portal",
             manager := ManagerOutcome.decided
               (mkDecision .SAVE_CREDENTIAL_VALUE none none (some "hunter2")),
             presenterEmpty := none, presenterLimit := none },
         Event.ACTION_COMPLETE
           (some (mkDecision .SAVE_CREDENTIAL_VALUE none none (some "hunter2")))
           envVerifierThrew,
         Event.START_TASK "another errand"]).currentTask.map
        (fun t => (t.id, t.status)) = some (2, TaskStatus.RESEARCHING)) ∧
    ((runEvents initState
        [Event.START_TASK "log into the portal",
         Event.RESEARCH_COMPLETE
           { thought := "t", facts := [], requires_browser := true, requires_vault := false }
           true (some { thought := "p", plan := ["fill the login form"] }) none,
         Event.PLAN_COMPLETE ["fill the login form"] "p",
         Event.RUN_NEXT_TURN
           { startTab := some 7, observe := ObserveOutcome.okSnap "Portal",
             manager := ManagerOutcome.decided
               (mkDecision .SAVE_CREDENTIAL_VALUE none none (some "hunter2")),
             presenterEmpty := none, presenterLimit := none },
         Event.ACTION_COMPLETE
           (some (mkDecision .SAVE_CREDENTIAL_VALUE none none (some "hunter2")))
           envVerifierThrew,
         Event.START_TASK "another errand"]).pendingCredentialOwner = some 1) := by
  decide
